import Mathlib

set_option maxRecDepth 100000

/-!
Verification of the breeth-bui-compiler core pipeline (parser.ts, merger.ts,
validator.ts, error-reporter.ts).  Source strings are modelled as `List Char`
(`Str`), file systems as explicit association lists, and the JavaScript
builtins that the source relies on (`String.prototype.split` with the two
regexes the source uses, `JSON.parse`, `path.resolve`/`dirname`/`basename`/
`extname` for posix, `trim`, `startsWith`, `includes`, `indexOf`) are given
executable models below.
-/

namespace Bui

/-- Strings are modelled as lists of characters. -/
abbrev Str := List Char

/-- Conversion from Lean string literals. -/
def txt (x : String) : Str := x.toList

/-- The `\x7b` character (left curly brace). -/
def lbrace : Char := Char.ofNat 123

/-- The `\x7d` character (right curly brace). -/
def rbrace : Char := Char.ofNat 125

/-- JavaScript whitespace as used by `String.prototype.trim` (ASCII part). -/
def isWsChar (c : Char) : Bool :=
  c = ' ' || c = '\t' || c = '\n' || c = '\r' || c = Char.ofNat 11 || c = Char.ofNat 12

/-- Drop trailing characters satisfying `p` (helper for `trim`). -/
def dropTrailWhile (p : Char → Bool) (s : Str) : Str :=
  (s.reverse.dropWhile p).reverse

/-- Model of JS `String.prototype.trim`. -/
def trimStr (s : Str) : Str :=
  dropTrailWhile isWsChar (s.dropWhile isWsChar)

/-- Model of JS `s.startsWith(p)`. -/
def jsStartsWith (s p : Str) : Bool :=
  List.isPrefixOf p s

/-- Model of JS `s.includes(pat)` for string patterns. -/
def containsSub (s pat : Str) : Bool :=
  match s with
  | [] => pat.isEmpty
  | _ :: t => List.isPrefixOf pat s || containsSub t pat

/-- Model of JS `s.indexOf(pat)` returning `none` for `-1`. -/
def indexOfSub (s pat : Str) : Option Nat :=
  match s with
  | [] => if pat.isEmpty then some 0 else none
  | _ :: t =>
    if List.isPrefixOf pat s then some 0
    else (indexOfSub t pat).map (· + 1)

/-- Model of JS `s.split(sep)` for a single-character separator: keeps empty
pieces, so the number of pieces is one more than the number of separators. -/
def jsSplitChar (sep : Char) : Str → List Str
  | [] => [[]]
  | c :: t =>
    let r := jsSplitChar sep t
    if c = sep then [] :: r
    else
      match r with
      | [] => [[c]]
      | h :: t2 => (c :: h) :: t2

/-- Model of JS `Char` lowercasing used by `toLowerCase` on ASCII input. -/
def toLowerStr (s : Str) : Str := s.map Char.toLower

/-- Decimal rendering of a natural number (for `Number.prototype.toString`). -/
def natToStr (n : Nat) : Str := Nat.toDigits 10 n

/-- Model of JS `s.padStart(n)` with spaces. -/
def padStartStr (n : Nat) (s : Str) : Str :=
  List.replicate (n - s.length) ' ' ++ s

/-- Join a list of strings with a separator (JS `Array.prototype.join`). -/
def joinSep (sep : Str) (l : List Str) : Str := List.intercalate sep l

end Bui

namespace Bui

/-!
### Models of the two regex splits used by the source

`splitBlocks` uses `content.split(/^---$/m)` and
`parseMergedContentWithSources` uses `content.split(/^---FILE:(.+)$/m)`
(whose capture groups are interleaved into the result by JS `split`).
-/

/-- Worker for `content.split(/^---$/m)`: `atStart` records whether the
current position is at the start of the input or right after a newline. -/
def splitDashGo : Nat → Bool → Str → Str → List Str
  | _, _, acc, [] => [acc.reverse]
  | 0, _, acc, s => [acc.reverse ++ s]
  | fuel + 1, atStart, acc, c :: t =>
    if atStart && c = '-' &&
        (match t with
         | '-' :: '-' :: r => r.isEmpty || r.headD ' ' = '\n'
         | _ => false) then
      acc.reverse :: splitDashGo fuel false [] (t.drop 2)
    else
      splitDashGo fuel (c = '\n') (c :: acc) t

/-- Model of JS `content.split(/^---$/m)`.  The fuel of the worker bounds
the characters consumed, each step consumes at least one, so `s.length`
makes the fuel-exhausted branch unreachable. -/
def splitDashLines (s : Str) : List Str := splitDashGo s.length true [] s

/-- Worker for `content.split(/^---FILE:(.+)$/m)`; captured paths are
interleaved into the output exactly as JS `split` does. -/
def splitFileGo : Nat → Bool → Str → Str → List Str
  | _, _, acc, [] => [acc.reverse]
  | 0, _, acc, s => [acc.reverse ++ s]
  | fuel + 1, atStart, acc, c :: t =>
    if atStart && jsStartsWith (c :: t) (txt "---FILE:") &&
        !(((c :: t).drop 8).takeWhile (· ≠ '\n')).isEmpty then
      acc.reverse :: ((c :: t).drop 8).takeWhile (· ≠ '\n') ::
        splitFileGo fuel false [] (((c :: t).drop 8).dropWhile (· ≠ '\n'))
    else
      splitFileGo fuel (c = '\n') (c :: acc) t

/-- Model of JS `content.split(/^---FILE:(.+)$/m)` (fuel as in
`splitDashLines`). -/
def splitFileSections (s : Str) : List Str := splitFileGo s.length true [] s

/-!
### Model of JSON values and of `JSON.parse`
-/

/-- JSON values as produced by `JSON.parse`. -/
inductive Json where
  | null : Json
  | bool : Bool → Json
  | num : Rat → Json
  | str : Str → Json
  | arr : List Json → Json
  | obj : List (Str × Json) → Json

/-- JSON insignificant whitespace. -/
def isJsonWs (c : Char) : Bool :=
  c = ' ' || c = '\t' || c = '\n' || c = '\r'

/-- Skip JSON whitespace. -/
def skipJsonWs (s : Str) : Str := s.dropWhile isJsonWs

/-- Hex digit value. -/
def hexVal (c : Char) : Option Nat :=
  if '0' ≤ c && c ≤ '9' then some (c.toNat - 48)
  else if 'a' ≤ c && c ≤ 'f' then some (c.toNat - 87)
  else if 'A' ≤ c && c ≤ 'F' then some (c.toNat - 55)
  else none

/-- Parse the body of a JSON string literal (after the opening quote),
returning the decoded characters and the rest of the input. -/
def jstrBody (s : Str) : Option (Str × Str) :=
  match s with
  | [] => none
  | '"' :: t => some ([], t)
  | '\\' :: e :: t =>
    match e with
    | '"' => (jstrBody t).map (fun p => ('"' :: p.1, p.2))
    | '\\' => (jstrBody t).map (fun p => ('\\' :: p.1, p.2))
    | '/' => (jstrBody t).map (fun p => ('/' :: p.1, p.2))
    | 'b' => (jstrBody t).map (fun p => (Char.ofNat 8 :: p.1, p.2))
    | 'f' => (jstrBody t).map (fun p => (Char.ofNat 12 :: p.1, p.2))
    | 'n' => (jstrBody t).map (fun p => ('\n' :: p.1, p.2))
    | 'r' => (jstrBody t).map (fun p => ('\r' :: p.1, p.2))
    | 't' => (jstrBody t).map (fun p => ('\t' :: p.1, p.2))
    | 'u' =>
      match t with
      | h1 :: h2 :: h3 :: h4 :: t2 =>
        match hexVal h1, hexVal h2, hexVal h3, hexVal h4 with
        | some a, some b, some c, some d =>
          (jstrBody t2).map (fun p =>
            (Char.ofNat (a * 4096 + b * 256 + c * 16 + d) :: p.1, p.2))
        | _, _, _, _ => none
      | _ => none
    | _ => none
  | c :: t =>
    if c.toNat < 32 then none
    else (jstrBody t).map (fun p => (c :: p.1, p.2))

/-- Digit test. -/
def isDigitCh (c : Char) : Bool := '0' ≤ c && c ≤ '9'

/-- Decimal digits to a natural number. -/
def digitsToNat (l : Str) : Nat := l.foldl (fun a c => a * 10 + (c.toNat - 48)) 0

/-- Parse a JSON number literal, returning its rational value. -/
def parseJsonNumber (s : Str) : Option (Rat × Str) :=
  let (neg, s1) := match s with | '-' :: t => (true, t) | _ => (false, s)
  let ip := s1.takeWhile isDigitCh
  let s2 := s1.dropWhile isDigitCh
  if ip.isEmpty then none
  else if 1 < ip.length && ip.headD ' ' = '0' then none
  else
    let (fp, s3) :=
      match s2 with
      | '.' :: t =>
        let d := t.takeWhile isDigitCh
        (d, t.dropWhile isDigitCh)
      | _ => (([] : Str), s2)
    if (match s2 with | '.' :: _ => fp.isEmpty | _ => false) then none
    else
      let (eSign, eDigits, s4) :=
        match s3 with
        | 'e' :: t | 'E' :: t =>
          match t with
          | '+' :: t2 => (1, t2.takeWhile isDigitCh, t2.dropWhile isDigitCh)
          | '-' :: t2 => (-1, t2.takeWhile isDigitCh, t2.dropWhile isDigitCh)
          | _ => (1, t.takeWhile isDigitCh, t.dropWhile isDigitCh)
        | _ => ((1 : Int), ([] : Str), s3)
      if (match s3 with | 'e' :: _ | 'E' :: _ => eDigits.isEmpty | _ => false) then none
      else
        let mant : Rat :=
          (digitsToNat ip : Rat) + mkRat (digitsToNat fp) (10 ^ fp.length)
        let withExp : Rat :=
          if eSign ≥ 0 then mant * (10 : Rat) ^ (digitsToNat eDigits)
          else mant / (10 : Rat) ^ (digitsToNat eDigits)
        some ((if neg then -withExp else withExp), s4)

/-- JS object key insertion: an existing key keeps its position and gets the
new value, a fresh key is appended (the semantics of building an object in
`JSON.parse` with duplicate keys). -/
def jsObjSet (l : List (Str × Json)) (k : Str) (v : Json) : List (Str × Json) :=
  if l.any (fun p => p.1 = k) then
    l.map (fun p => if p.1 = k then (k, v) else p)
  else l ++ [(k, v)]

mutual

/-- Fuel-indexed JSON value parse. -/
def parseJsonValue : Nat → Str → Option (Json × Str)
  | 0, _ => none
  | fuel + 1, s =>
    let s := skipJsonWs s
    match s with
    | '"' :: t => (jstrBody t).map (fun p => (Json.str p.1, p.2))
    | 't' :: 'r' :: 'u' :: 'e' :: t => some (Json.bool true, t)
    | 'f' :: 'a' :: 'l' :: 's' :: 'e' :: t => some (Json.bool false, t)
    | 'n' :: 'u' :: 'l' :: 'l' :: t => some (Json.null, t)
    | '[' :: t =>
      let t2 := skipJsonWs t
      match t2 with
      | ']' :: t3 => some (Json.arr [], t3)
      | _ =>
        match parseJsonElems fuel t with
        | some (l, r) => some (Json.arr l, r)
        | none => none
    | c :: _ =>
      if c = lbrace then
        let t := s.tail
        let t2 := skipJsonWs t
        match t2 with
        | c2 :: t3 =>
          if c2 = rbrace then some (Json.obj [], t3)
          else
            match parseJsonMembers fuel [] t with
            | some (l, r) => some (Json.obj l, r)
            | none => none
        | [] => none
      else if c = '-' || isDigitCh c then
        (parseJsonNumber s).map (fun p => (Json.num p.1, p.2))
      else none
    | [] => none

/-- Fuel-indexed parse of array elements (after `[`). -/
def parseJsonElems : Nat → Str → Option (List Json × Str)
  | 0, _ => none
  | fuel + 1, s =>
    match parseJsonValue fuel s with
    | none => none
    | some (v, r) =>
      let r2 := skipJsonWs r
      match r2 with
      | ']' :: r3 => some ([v], r3)
      | ',' :: r3 =>
        match parseJsonElems fuel r3 with
        | some (l, r4) => some (v :: l, r4)
        | none => none
      | _ => none

/-- Fuel-indexed parse of object members (after the opening brace). -/
def parseJsonMembers : Nat → List (Str × Json) → Str → Option (List (Str × Json) × Str)
  | 0, _, _ => none
  | fuel + 1, acc, s =>
    let s2 := skipJsonWs s
    match s2 with
    | '"' :: t =>
      match jstrBody t with
      | none => none
      | some (k, r) =>
        match skipJsonWs r with
        | ':' :: r2 =>
          match parseJsonValue fuel r2 with
          | none => none
          | some (v, r3) =>
            let acc2 := jsObjSet acc k v
            let r4 := skipJsonWs r3
            match r4 with
            | ',' :: r5 => parseJsonMembers fuel acc2 r5
            | c :: r5 =>
              if c = rbrace then some (acc2, r5) else none
            | [] => none
        | _ => none
    | _ => none

end

/-- Model of `JSON.parse`: succeeds when the whole input (modulo surrounding
whitespace) is one JSON value. -/
def jsonParse (s : Str) : Option Json :=
  match parseJsonValue (2 * s.length + 2) s with
  | some (v, rest) => if (skipJsonWs rest).isEmpty then some v else none
  | none => none

end Bui

namespace Bui

/-!
### Model of the Node `path` module (posix)

The source runs `path.resolve`, `path.dirname`, `path.basename` and
`path.extname` on posix-style paths; the model assumes an absolute working
directory (carried explicitly by the environment, see `Env`).
-/

/-- Non-empty path segments of a posix path. -/
def pathSegments (p : Str) : List Str :=
  (jsSplitChar '/' p).filter (fun s => !s.isEmpty)

/-- Whether a posix path is absolute. -/
def isAbsPath (p : Str) : Bool := p.headD ' ' = '/'

/-- Normalize an absolute posix path: resolve `.` and `..`, collapse slashes,
no trailing slash (`path.resolve` output shape). -/
def normalizeAbs (p : Str) : Str :=
  let out := (pathSegments p).foldl
    (fun acc seg =>
      if seg = txt "." then acc
      else if seg = txt ".." then acc.dropLast
      else acc ++ [seg])
    ([] : List Str)
  '/' :: joinSep (txt "/") out

/-- Model of Node `path.resolve(part₁, …, partₙ)` relative to the working
directory `cwd` (assumed absolute): later absolute parts win, relative parts
are joined, and the result is normalized. -/
def pathResolve (cwd : Str) (parts : List Str) : Str :=
  normalizeAbs (parts.foldl
    (fun acc part => if isAbsPath part then part else acc ++ '/' :: part) cwd)

/-- Model of Node `path.dirname` (posix). -/
def pathDirname (p : Str) : Str :=
  let t := dropTrailWhile (· = '/') p
  if t.isEmpty then (if isAbsPath p then txt "/" else txt ".")
  else
    let pre := dropTrailWhile (· ≠ '/') t
    let pre2 := dropTrailWhile (· = '/') pre
    if pre.isEmpty then txt "."
    else if pre2.isEmpty then txt "/"
    else pre2

/-- Model of Node `path.basename` (posix). -/
def pathBasename (p : Str) : Str :=
  let t := dropTrailWhile (· = '/') p
  (t.reverse.takeWhile (· ≠ '/')).reverse

/-- Model of Node `path.extname` (posix): the suffix of the basename from its
last `.`, empty when there is no dot or the dot is the first character. -/
def pathExtname (p : Str) : Str :=
  let b := pathBasename p
  let revTail := b.reverse.takeWhile (· ≠ '.')
  if revTail.length = b.length then []
  else if revTail.length + 1 = b.length then []
  else '.' :: revTail.reverse

/-!
### Types from `src/types.ts` and the error reporter
(`ErrorCode`/`WarningCode`/`createError`/`createWarning`/`createParseContext`/
`updateParseContext`/`calculateLineColumn`/`extractContext`)
-/

/-- `ParseContext` from `src/types.ts`. -/
structure ParseContext where
  filePath : Str
  content : Str
  lineOffset : Nat
  currentLine : Nat
  currentColumn : Nat
deriving Repr

/-- `CompilerError` from `src/types.ts`; `CompilerWarning` is the same shape
with severity `"warning"`. -/
structure CompilerError where
  message : Str
  line : Nat
  column : Nat
  severity : Str
  code : Str
  file : Option Str := none
  context : Option Str := none
  suggestion : Option Str := none

/-- `CompilerWarning` (same fields, severity always `"warning"`). -/
abbrev CompilerWarning := CompilerError

/-- The string-valued `ErrorCode` enum of the error reporter. -/
def ErrorCode.INVALID_SYNTAX : Str := txt "E001"
def ErrorCode.MISSING_COLON : Str := txt "E002"
def ErrorCode.INVALID_VERSION : Str := txt "E003"
def ErrorCode.INVALID_PROFILE_JSON : Str := txt "E004"
def ErrorCode.INVALID_BPOD_JSON : Str := txt "E005"
def ErrorCode.MISSING_BPOD_NAME : Str := txt "E006"
def ErrorCode.DUPLICATE_BPOD_NAME : Str := txt "E007"
def ErrorCode.INVALID_FILES_BLOCK : Str := txt "E008"
def ErrorCode.PROFILE_NAME_REQUIRED : Str := txt "E101"
def ErrorCode.PROFILE_DESCRIPTION_TOO_LONG : Str := txt "E102"
def ErrorCode.INVALID_LOGO_URL : Str := txt "E103"
def ErrorCode.INVALID_WEBSITE_URL : Str := txt "E104"
def ErrorCode.BPOD_NAME_REQUIRED : Str := txt "E201"
def ErrorCode.BPOD_ACCEPTS_EMPTY : Str := txt "E202"
def ErrorCode.BPOD_ACCEPTS_INVALID_FORMAT : Str := txt "E203"
def ErrorCode.BPOD_SUBMIT_LABEL_REQUIRED : Str := txt "E204"
def ErrorCode.BPOD_SUBMIT_ACTION_REQUIRED : Str := txt "E205"
def ErrorCode.BPOD_API_URL_INVALID : Str := txt "E206"
def ErrorCode.BPOD_API_METHOD_INVALID : Str := txt "E207"
def ErrorCode.BPOD_API_BODY_TEMPLATE_MISSING_WEBHOOK : Str := txt "E208"
def ErrorCode.BPOD_INPUT_OPTIONS_REQUIRED : Str := txt "E209"
def ErrorCode.FILE_NOT_FOUND : Str := txt "E301"
def ErrorCode.FILE_TOO_LARGE : Str := txt "E302"
def ErrorCode.TOO_MANY_FILES : Str := txt "E303"
def ErrorCode.FILE_READ_ERROR : Str := txt "E304"
def ErrorCode.INVALID_FILE_PATH : Str := txt "E305"
def ErrorCode.UNKNOWN_ERROR : Str := txt "E499"
def WarningCode.PROFILE_MISSING_LOGO : Str := txt "W101"
def WarningCode.PROFILE_MISSING_WEBSITE : Str := txt "W102"
def WarningCode.BPOD_MISSING_DESCRIPTION : Str := txt "W201"
def WarningCode.BPOD_MISSING_TAGS : Str := txt "W202"
def WarningCode.API_MISSING_HEADERS : Str := txt "W203"
def WarningCode.API_MISSING_TIMEOUT : Str := txt "W204"

/-- `createParseContext(filePath, content, lineOffset = 0)`. -/
def createParseContext (filePath : Str) (content : Str) (lineOffset : Nat := 0) :
    ParseContext :=
  { filePath := filePath, content := content, lineOffset := lineOffset,
    currentLine := 1, currentColumn := 1 }

/-- `updateParseContext(context, newLine, newColumn)`. -/
def updateParseContext (context : ParseContext) (newLine newColumn : Nat) :
    ParseContext :=
  { context with currentLine := newLine, currentColumn := newColumn }

/-- `calculateLineColumn(context)`. -/
def calculateLineColumn (context : ParseContext) : Nat × Nat :=
  (context.currentLine + context.lineOffset, context.currentColumn)

/-- `extractContext(content, targetLine, contextLines)`: renders a window of
lines around the offending line. -/
def extractContext (content : Str) (targetLine contextLines : Nat) : Str :=
  let lines := jsSplitChar '\n' content
  let start := targetLine - contextLines - 1
  let stop := min lines.length (targetLine + contextLines)
  let window := (lines.take stop).drop start
  joinSep (txt "\n")
    ((window.enum).map (fun p =>
      let lineNum := start + p.1 + 1
      let marker := if lineNum = targetLine then '>' else ' '
      marker :: ' ' :: padStartStr 3 (natToStr lineNum) ++ ':' :: ' ' :: p.2))

/-- `createError(code, message, context, suggestion?, severity = "error")`. -/
def createError (code : Str) (message : Str) (context : ParseContext)
    (suggestion : Option Str := none) (severity : Str := txt "error") :
    CompilerError :=
  let lc := calculateLineColumn context
  { message := message, line := lc.1, column := lc.2, severity := severity,
    code := code, file := some context.filePath,
    context := some (extractContext context.content context.currentLine 3),
    suggestion := suggestion }

/-- `createWarning(code, message, context, suggestion?)`. -/
def createWarning (code : Str) (message : Str) (context : ParseContext)
    (suggestion : Option Str := none) : CompilerWarning :=
  let lc := calculateLineColumn context
  { message := message, line := lc.1, column := lc.2, severity := txt "warning",
    code := code, file := some context.filePath,
    context := some (extractContext context.content context.currentLine 2),
    suggestion := suggestion }

end Bui

namespace Bui

/-!
### Model of `src/core/validator.ts`

The zod schemas (`profileSchema`, `inputSchema`, `apiSchema`, `bPodSchema`)
are modelled as explicit parse functions over `Json` that collect a list of
issues (zod collects every violated constraint) and build the parsed data;
`safeParse` succeeds exactly when the issue list is empty.  Refinements run
only when the underlying object parse succeeded, and chained refinements all
run (zod marks the result dirty, not aborted).
-/

/-- A zod issue: code (zod's own code string), message, path, received. -/
structure ZodIssue where
  code : Str
  message : Str
  path : List Str
  received : Option Str := none

/-- `ValidationIssue` from `src/types.ts` (`received` is rendered to a string
where the source stores an arbitrary value). -/
structure ValidationIssue where
  message : Str
  path : List Str
  code : Str
  received : Option Str := none
  expected : Option Str := none

/-- The `error` payload of a `ValidationResult`. -/
structure ValError where
  issues : List ValidationIssue
  message : Str

/-- `ValidationResult<T>` from `src/types.ts`. -/
structure ValidationResult (T : Type) where
  success : Bool
  data : Option T := none
  error : Option ValError := none

/-- Parsed profile (the output type of `profileSchema`). -/
structure ProfileData where
  name : Str
  logo : Str
  description : Str
  website : Option Str := none
  contact : Option Str := none

/-- Parsed input `validation` sub-object. -/
structure InputValidationData where
  min : Option Rat := none
  max : Option Rat := none
  pattern : Option Str := none
  message : Option Str := none

/-- Parsed input descriptor. -/
structure InputData where
  name : Str
  type : Str
  label : Option Str := none
  options : Option (List Str) := none
  required : Option Bool := none
  placeholder : Option Str := none
  validation : Option InputValidationData := none

/-- Parsed submit descriptor. -/
structure SubmitData where
  label : Str
  action : Str
  disabled : Option Bool := none
  loading : Option Bool := none

/-- Parsed api descriptor. -/
structure ApiData where
  url : Str
  method : Str
  fileParams : List Str
  bodyTemplate : List (Str × Str)
  responseType : Str
  headers : Option (List (Str × Str)) := none
  timeout : Option Rat := none
  retries : Option Rat := none

/-- Parsed service descriptor (output type of `bPodSchema`). -/
structure BPodData where
  name : Str
  accepts : List Str
  inputs : Option (List InputData) := none
  submit : SubmitData
  api : ApiData
  description : Option Str := none
  tags : Option (List Str) := none
  version : Option Str := none

/-- zod's name for the runtime type of a JSON value. -/
def jsonTypeName : Json → Str
  | .null => txt "null"
  | .bool _ => txt "boolean"
  | .num _ => txt "number"
  | .str _ => txt "string"
  | .arr _ => txt "array"
  | .obj _ => txt "object"

/-- Build a zod issue. -/
def mkIssue (code message : Str) (path : List Str)
    (received : Option Str := none) : ZodIssue :=
  { code := code, message := message, path := path, received := received }

/-- zod's issue for a missing required field. -/
def reqIssue (path : List Str) : ZodIssue :=
  mkIssue (txt "invalid_type") (txt "Required") path (some (txt "undefined"))

/-- zod's `invalid_type` issue. -/
def typeIssue (path : List Str) (expected : Str) (v : Json) : ZodIssue :=
  mkIssue (txt "invalid_type")
    (txt "Expected " ++ expected ++ txt ", received " ++ jsonTypeName v)
    path (some (jsonTypeName v))

/-- Field lookup on a parsed JSON object. -/
def objGet (fields : List (Str × Json)) (k : Str) : Option Json :=
  (fields.find? (fun p => p.1 = k)).map Prod.snd

/-- Model of the URL validity test behind zod's `.url()` (`new URL(...)`). -/
def isValidUrlStr (s : Str) : Bool :=
  match indexOfSub s (txt "://") with
  | none => false
  | some i => 0 < i && !(s.drop (i + 3)).isEmpty && !(s.any (· = ' '))

/-- The `^[a-z0-9]+$` regex used for file extensions. -/
def isLowerAlnum (s : Str) : Bool :=
  !s.isEmpty && s.all (fun c => ('a' ≤ c && c ≤ 'z') || ('0' ≤ c && c ≤ '9'))

/-- `z.string()` with a list of chained checks. -/
def zodStringAt (path : List Str) (checks : Str → List ZodIssue) :
    Json → List ZodIssue × Str
  | .str s => (checks s, s)
  | v => ([typeIssue path (txt "string") v], [])

/-- An optional field (`.optional()`): absent is fine, present goes through
the inner parse (so `null` still fails with `invalid_type`). -/
def zodOptAt {A : Type} (f : Json → List ZodIssue × A) :
    Option Json → List ZodIssue × Option A
  | none => ([], none)
  | some v => let r := f v; (r.1, some r.2)

/-- `z.boolean()`. -/
def zodBoolAt (path : List Str) : Json → List ZodIssue × Bool
  | .bool b => ([], b)
  | v => ([typeIssue path (txt "boolean") v], false)

/-- `z.number()` with chained checks. -/
def zodNumAt (path : List Str) (checks : Rat → List ZodIssue) :
    Json → List ZodIssue × Rat
  | .num q => (checks q, q)
  | v => ([typeIssue path (txt "number") v], 0)

/-- `z.record(z.string(), z.string())`. -/
def zodRecordStrAt (path : List Str) : Json → List ZodIssue × List (Str × Str)
  | .obj fields =>
    (fields.flatMap (fun p =>
       match p.2 with
       | .str _ => []
       | v => [typeIssue (path ++ [p.1]) (txt "string") v]),
     fields.filterMap (fun p =>
       match p.2 with
       | .str s => some (p.1, s)
       | _ => none))
  | v => ([typeIssue path (txt "object") v], [])

/-- `z.array(z.string())` with an optional minimum length message. -/
def zodStrArrayAt (path : List Str) (minMsg : Option Str) :
    Json → List ZodIssue × List Str
  | .arr l =>
    ((if l.isEmpty then
        match minMsg with
        | some m => [mkIssue (txt "too_small") m path]
        | none => []
      else []) ++
     (l.enum.flatMap (fun p =>
        match p.2 with
        | .str _ => []
        | v => [typeIssue (path ++ [natToStr p.1]) (txt "string") v])),
     l.filterMap (fun v => match v with | .str s => some s | _ => none))
  | v => ([typeIssue path (txt "array") v], [])

/-- `accepts`: `z.array(z.string().regex(^[a-z0-9]+$)).nonempty(...)`. -/
def zodAcceptsAt (path : List Str) : Json → List ZodIssue × List Str
  | .arr l =>
    ((if l.isEmpty then
        [mkIssue (txt "too_small") (txt "At least one file type must be accepted") path]
      else []) ++
     (l.enum.flatMap (fun p =>
        match p.2 with
        | .str s =>
          if isLowerAlnum s then []
          else [mkIssue (txt "invalid_string")
                  (txt "File extension must be lowercase without dot")
                  (path ++ [natToStr p.1])]
        | v => [typeIssue (path ++ [natToStr p.1]) (txt "string") v])),
     l.filterMap (fun v => match v with | .str s => some s | _ => none))
  | v => ([typeIssue path (txt "array") v], [])

/-- `z.enum([...])`. -/
def zodEnumAt (path : List Str) (allowed : List Str) :
    Json → List ZodIssue × Str
  | .str s =>
    (if allowed.any (· = s) then []
     else [mkIssue (txt "invalid_enum_value") (txt "Invalid enum value") path (some s)], s)
  | v => ([typeIssue path (txt "string") v], [])

end Bui

namespace Bui

/-- `DEFAULT_LOGO` from the validator. -/
def DEFAULT_LOGO : Str := txt "https://cdn.breeth.com/default-logo.png"

/-- `profileSchema` object parse (no refinements are declared on it). -/
def profileParseCore (j : Json) : List ZodIssue × ProfileData :=
  match j with
  | .obj fields =>
    let nameR :=
      match objGet fields (txt "name") with
      | none => ([reqIssue [txt "name"]], ([] : Str))
      | some v =>
        zodStringAt [txt "name"]
          (fun s => if s.length < 1 then
              [mkIssue (txt "too_small") (txt "Profile name is required") [txt "name"]]
            else []) v
    let logoR :=
      match objGet fields (txt "logo") with
      | none => ([], DEFAULT_LOGO)   -- `.optional().default(DEFAULT_LOGO)`
      | some v =>
        zodStringAt [txt "logo"]
          (fun s =>
            (if isValidUrlStr s then []
             else [mkIssue (txt "invalid_string") (txt "Logo must be a valid URL") [txt "logo"]]) ++
            (if jsStartsWith s (txt "https://") then []
             else [mkIssue (txt "invalid_string") (txt "Logo URL must use HTTPS") [txt "logo"]])) v
    let descR :=
      match objGet fields (txt "description") with
      | none => ([reqIssue [txt "description"]], ([] : Str))
      | some v =>
        zodStringAt [txt "description"]
          (fun s => if 500 < s.length then
              [mkIssue (txt "too_big") (txt "Description cannot exceed 500 characters") [txt "description"]]
            else []) v
    let webR :=
      zodOptAt (zodStringAt [txt "website"]
        (fun s =>
          (if isValidUrlStr s then []
           else [mkIssue (txt "invalid_string") (txt "Website must be a valid URL") [txt "website"]]) ++
          (if jsStartsWith s (txt "https://") then []
           else [mkIssue (txt "invalid_string") (txt "Website must use HTTPS") [txt "website"]])))
        (objGet fields (txt "website"))
    let contactR :=
      zodOptAt (zodStringAt [txt "contact"] (fun _ => [])) (objGet fields (txt "contact"))
    (nameR.1 ++ logoR.1 ++ descR.1 ++ webR.1 ++ contactR.1,
     { name := nameR.2, logo := logoR.2, description := descR.2,
       website := webR.2, contact := contactR.2 })
  | v => ([typeIssue [] (txt "object") v], { name := [], logo := [], description := [] })

/-- `inputSchema` base object parse (refinements handled in `inputParseAt`). -/
def inputParseCore (path : List Str) (j : Json) : List ZodIssue × InputData :=
  match j with
  | .obj fields =>
    let nameR :=
      match objGet fields (txt "name") with
      | none => ([reqIssue (path ++ [txt "name"])], ([] : Str))
      | some v =>
        zodStringAt (path ++ [txt "name"])
          (fun s => if s.length < 1 then
              [mkIssue (txt "too_small") (txt "Input name is required") (path ++ [txt "name"])]
            else []) v
    let typeR :=
      match objGet fields (txt "type") with
      | none => ([reqIssue (path ++ [txt "type"])], ([] : Str))
      | some v =>
        zodEnumAt (path ++ [txt "type"])
          [txt "text", txt "textarea", txt "number", txt "checkbox",
           txt "radio", txt "dropdown", txt "toggle", txt "hidden"] v
    let labelR := zodOptAt (zodStringAt (path ++ [txt "label"]) (fun _ => []))
        (objGet fields (txt "label"))
    let optionsR := zodOptAt (fun v => zodStrArrayAt (path ++ [txt "options"]) none v)
        (objGet fields (txt "options"))
    let requiredR := zodOptAt (zodBoolAt (path ++ [txt "required"]))
        (objGet fields (txt "required"))
    let placeholderR := zodOptAt (zodStringAt (path ++ [txt "placeholder"]) (fun _ => []))
        (objGet fields (txt "placeholder"))
    let validationR :=
      zodOptAt (fun v =>
        match v with
        | .obj vf =>
          let minR := zodOptAt (zodNumAt (path ++ [txt "validation", txt "min"]) (fun _ => []))
              (objGet vf (txt "min"))
          let maxR := zodOptAt (zodNumAt (path ++ [txt "validation", txt "max"]) (fun _ => []))
              (objGet vf (txt "max"))
          let patR := zodOptAt (zodStringAt (path ++ [txt "validation", txt "pattern"]) (fun _ => []))
              (objGet vf (txt "pattern"))
          let msgR := zodOptAt (zodStringAt (path ++ [txt "validation", txt "message"]) (fun _ => []))
              (objGet vf (txt "message"))
          (minR.1 ++ maxR.1 ++ patR.1 ++ msgR.1,
           ({ min := minR.2, max := maxR.2, pattern := patR.2, message := msgR.2 } :
             InputValidationData))
        | v => ([typeIssue (path ++ [txt "validation"]) (txt "object") v],
                ({} : InputValidationData)))
        (objGet fields (txt "validation"))
    (nameR.1 ++ typeR.1 ++ labelR.1 ++ optionsR.1 ++ requiredR.1 ++
       placeholderR.1 ++ validationR.1,
     { name := nameR.2, type := typeR.2, label := labelR.2, options := optionsR.2,
       required := requiredR.2, placeholder := placeholderR.2,
       validation := validationR.2 })
  | v => ([typeIssue path (txt "object") v], { name := [], type := [] })

/-- `inputSchema` with its two `.refine` steps (options required for
radio/dropdown; numeric `min ≤ max`). -/
def inputParseAt (path : List Str) (j : Json) : List ZodIssue × InputData :=
  let r := inputParseCore path j
  if !r.1.isEmpty then r
  else
    let d := r.2
    let i1 :=
      if (d.type = txt "radio" || d.type = txt "dropdown") &&
         (d.options.isNone || (d.options.getD []).isEmpty) then
        [mkIssue (txt "custom") (txt "Radio and dropdown inputs require options") path]
      else []
    let i2 :=
      if d.type = txt "number" then
        match d.validation with
        | some v =>
          match v.min, v.max with
          | some mn, some mx =>
            if mx < mn then
              [mkIssue (txt "custom") (txt "Min value cannot be greater than max value") path]
            else []
          | _, _ => []
        | none => []
      else []
    (i1 ++ i2, d)

/-- `apiSchema` base object parse (before its two `.refine` steps). -/
def apiParseCore (j : Json) : List ZodIssue × ApiData :=
  match j with
  | .obj fields =>
    let urlR :=
      match objGet fields (txt "url") with
      | none => ([reqIssue [txt "api", txt "url"]], ([] : Str))
      | some v =>
        zodStringAt [txt "api", txt "url"]
          (fun s =>
            (if isValidUrlStr s then []
             else [mkIssue (txt "invalid_string") (txt "API URL must be a valid URL")
                     [txt "api", txt "url"]]) ++
            (if jsStartsWith s (txt "https://") then []
             else [mkIssue (txt "invalid_string") (txt "API URL must start with https://")
                     [txt "api", txt "url"]])) v
    let methodR :=
      match objGet fields (txt "method") with
      | none => ([reqIssue [txt "api", txt "method"]], ([] : Str))
      | some v => zodEnumAt [txt "api", txt "method"] [txt "GET", txt "POST"] v
    let fileParamsR :=
      match objGet fields (txt "fileParams") with
      | none => ([reqIssue [txt "api", txt "fileParams"]], ([] : List Str))
      | some v =>
        zodStrArrayAt [txt "api", txt "fileParams"]
          (some (txt "At least one file parameter is required")) v
    let bodyTemplateR :=
      match objGet fields (txt "bodyTemplate") with
      | none => ([reqIssue [txt "api", txt "bodyTemplate"]], ([] : List (Str × Str)))
      | some v => zodRecordStrAt [txt "api", txt "bodyTemplate"] v
    let responseTypeR :=
      match objGet fields (txt "responseType") with
      | none => ([reqIssue [txt "api", txt "responseType"]], ([] : Str))
      | some v => zodEnumAt [txt "api", txt "responseType"] [txt "file", txt "json"] v
    let headersR :=
      zodOptAt (zodRecordStrAt [txt "api", txt "headers"]) (objGet fields (txt "headers"))
    let timeoutR :=
      zodOptAt (zodNumAt [txt "api", txt "timeout"]
        (fun q => if q ≤ 0 then
            [mkIssue (txt "too_small") (txt "Timeout must be positive") [txt "api", txt "timeout"]]
          else []))
        (objGet fields (txt "timeout"))
    let retriesR :=
      zodOptAt (zodNumAt [txt "api", txt "retries"]
        (fun q =>
          (if q.den ≠ 1 then
             [mkIssue (txt "invalid_type") (txt "Expected integer, received float")
                [txt "api", txt "retries"]]
           else []) ++
          (if q < 0 then
             [mkIssue (txt "too_small") (txt "Retries must be non-negative")
                [txt "api", txt "retries"]]
           else []) ++
          (if 5 < q then
             [mkIssue (txt "too_big") (txt "Retries cannot exceed 5")
                [txt "api", txt "retries"]]
           else [])))
        (objGet fields (txt "retries"))
    (urlR.1 ++ methodR.1 ++ fileParamsR.1 ++ bodyTemplateR.1 ++ responseTypeR.1 ++
       headersR.1 ++ timeoutR.1 ++ retriesR.1,
     { url := urlR.2, method := methodR.2, fileParams := fileParamsR.2,
       bodyTemplate := bodyTemplateR.2, responseType := responseTypeR.2,
       headers := headersR.2, timeout := timeoutR.2, retries := retriesR.2 })
  | v => ([typeIssue [txt "api"] (txt "object") v],
          { url := [], method := [], fileParams := [], bodyTemplate := [],
            responseType := [] })

/-- `apiSchema`'s first refinement: some `bodyTemplate` value contains
`\x7bwebhook_url\x7d`. -/
def apiWebhookRefine (d : ApiData) : Bool :=
  d.bodyTemplate.any (fun p => containsSub p.2 (txt "\x7bwebhook_url\x7d"))

/-- `apiSchema`'s second refinement: a GET request must not carry a
non-empty `bodyTemplate`. -/
def apiGetRefine (d : ApiData) : Bool :=
  !(d.method = txt "GET" && !d.bodyTemplate.isEmpty)

/-- Full `apiSchema`: base object parse, then both refinements (zod runs the
second refinement even when the first already failed). -/
def apiParseAt (j : Json) : List ZodIssue × ApiData :=
  let r := apiParseCore j
  if !r.1.isEmpty then r
  else
    ((if apiWebhookRefine r.2 then []
      else [mkIssue (txt "custom")
              (txt "Body template must include \x7bwebhook_url\x7d parameter")
              [txt "api"]]) ++
     (if apiGetRefine r.2 then []
      else [mkIssue (txt "custom") (txt "GET requests cannot have a body template")
              [txt "api"]]),
     r.2)

/-- `bPodSchema` parameterized by the parse used for the `api` field (the
full schema uses `apiParseAt`; `apiParseCore` gives the schema without the
api refinements, used to state "all other fields valid" hypotheses). -/
def bPodParseGen (apiF : Json → List ZodIssue × ApiData) (j : Json) :
    List ZodIssue × BPodData :=
  match j with
  | .obj fields =>
    let nameR :=
      match objGet fields (txt "name") with
      | none => ([reqIssue [txt "name"]], ([] : Str))
      | some v =>
        zodStringAt [txt "name"]
          (fun s => if s.length < 1 then
              [mkIssue (txt "too_small") (txt "BPod name is required") [txt "name"]]
            else []) v
    let acceptsR :=
      match objGet fields (txt "accepts") with
      | none => ([reqIssue [txt "accepts"]], ([] : List Str))
      | some v => zodAcceptsAt [txt "accepts"] v
    let inputsR :=
      zodOptAt (fun v =>
        match v with
        | .arr l =>
          let rs := l.enum.map (fun p => inputParseAt [txt "inputs", natToStr p.1] p.2)
          (rs.flatMap Prod.fst, rs.map Prod.snd)
        | v => ([typeIssue [txt "inputs"] (txt "array") v], []))
        (objGet fields (txt "inputs"))
    let submitR :=
      match objGet fields (txt "submit") with
      | none => ([reqIssue [txt "submit"]],
                 ({ label := [], action := [] } : SubmitData))
      | some (.obj sf) =>
        let labelR :=
          match objGet sf (txt "label") with
          | none => ([reqIssue [txt "submit", txt "label"]], ([] : Str))
          | some v =>
            zodStringAt [txt "submit", txt "label"]
              (fun s => if s.length < 1 then
                  [mkIssue (txt "too_small") (txt "Submit label is required")
                     [txt "submit", txt "label"]]
                else []) v
        let actionR :=
          match objGet sf (txt "action") with
          | none => ([reqIssue [txt "submit", txt "action"]], ([] : Str))
          | some v =>
            zodStringAt [txt "submit", txt "action"]
              (fun s => if s.length < 1 then
                  [mkIssue (txt "too_small") (txt "Submit action is required")
                     [txt "submit", txt "action"]]
                else []) v
        let disabledR := zodOptAt (zodBoolAt [txt "submit", txt "disabled"])
            (objGet sf (txt "disabled"))
        let loadingR := zodOptAt (zodBoolAt [txt "submit", txt "loading"])
            (objGet sf (txt "loading"))
        (labelR.1 ++ actionR.1 ++ disabledR.1 ++ loadingR.1,
         { label := labelR.2, action := actionR.2,
           disabled := disabledR.2, loading := loadingR.2 })
      | some v => ([typeIssue [txt "submit"] (txt "object") v],
                   ({ label := [], action := [] } : SubmitData))
    let apiR :=
      match objGet fields (txt "api") with
      | none => ([reqIssue [txt "api"]],
                 ({ url := [], method := [], fileParams := [], bodyTemplate := [],
                    responseType := [] } : ApiData))
      | some v => apiF v
    let descR := zodOptAt (zodStringAt [txt "description"] (fun _ => []))
        (objGet fields (txt "description"))
    let tagsR := zodOptAt (fun v => zodStrArrayAt [txt "tags"] none v)
        (objGet fields (txt "tags"))
    let versionR := zodOptAt (zodStringAt [txt "version"] (fun _ => []))
        (objGet fields (txt "version"))
    (nameR.1 ++ acceptsR.1 ++ inputsR.1 ++ submitR.1 ++ apiR.1 ++ descR.1 ++
       tagsR.1 ++ versionR.1,
     { name := nameR.2, accepts := acceptsR.2, inputs := inputsR.2,
       submit := submitR.2, api := apiR.2, description := descR.2,
       tags := tagsR.2, version := versionR.2 })
  | v => ([typeIssue [] (txt "object") v],
          { name := [], accepts := [],
            submit := { label := [], action := [] },
            api := { url := [], method := [], fileParams := [], bodyTemplate := [],
                     responseType := [] } })

/-- The full `bPodSchema` parse (`bPodSchema.safeParse`'s issue collection). -/
def bPodParse (j : Json) : List ZodIssue × BPodData :=
  bPodParseGen apiParseAt j

end Bui

namespace Bui

/-- `mapZodErrorToCode`'s lookup table (source order). -/
def zodCodeMap : List (Str × Str) :=
  [(txt "invalid_string", txt "E102"),
   (txt "invalid_url", txt "E103"),
   (txt "too_big", txt "E102"),
   (txt "too_small", txt "E201"),
   (txt "invalid_enum_value", txt "E207"),
   (txt "invalid_regex", txt "E203"),
   (txt "invalid_type", txt "E001"),
   (txt "missing", txt "E201"),
   (txt "unrecognized_keys", txt "E001"),
   (txt "invalid_union", txt "E001"),
   (txt "invalid_arguments", txt "E001"),
   (txt "invalid_return_type", txt "E001"),
   (txt "invalid_date", txt "E001"),
   (txt "custom", txt "E001"),
   (txt "invalid_literal", txt "E001"),
   (txt "invalid_intersection_types", txt "E001"),
   (txt "not_multiple_of", txt "E001"),
   (txt "not_finite", txt "E001")]

/-- `mapZodErrorToCode(zodCode)`. -/
def mapZodErrorToCode (zodCode : Str) : Str :=
  (((zodCodeMap.find? (fun p => p.1 = zodCode)).map Prod.snd)).getD (txt "E001")

/-- The per-issue code override in `validateProfile`'s failure branch. -/
def profileIssueToValidation (zi : ZodIssue) : ValidationIssue :=
  let code :=
    if zi.path.contains (txt "name") &&
        (zi.code = txt "missing" || zi.code = txt "invalid_type") then
      ErrorCode.PROFILE_NAME_REQUIRED
    else if zi.path.contains (txt "logo") && zi.code = txt "invalid_string" then
      ErrorCode.INVALID_LOGO_URL
    else if zi.path.contains (txt "website") && zi.code = txt "invalid_string" then
      ErrorCode.INVALID_WEBSITE_URL
    else mapZodErrorToCode zi.code
  { message := zi.message, path := zi.path, code := code,
    received := zi.received, expected := none }

/-- The advisory warnings computed on a successfully validated profile. -/
def profileWarnings (d : ProfileData) : List ValidationIssue :=
  (if d.logo.isEmpty || d.logo = DEFAULT_LOGO then
     [({ message := txt "Profile is missing a custom logo", path := [txt "logo"],
         code := WarningCode.PROFILE_MISSING_LOGO, received := some d.logo,
         expected := some (txt "Custom logo URL") } : ValidationIssue)]
   else []) ++
  (if d.website.isNone then
     [({ message := txt "Profile is missing a website URL", path := [txt "website"],
         code := WarningCode.PROFILE_MISSING_WEBSITE, received := none,
         expected := some (txt "Website URL") } : ValidationIssue)]
   else [])

/-- `validateProfile(profile)`. -/
def validateProfile (j : Json) : ValidationResult ProfileData :=
  let parsed := profileParseCore j
  if parsed.1.isEmpty then
    -- `if (!parsed.data.logo) parsed.data.logo = DEFAULT_LOGO;`
    let d0 := parsed.2
    let d := { d0 with logo := if d0.logo.isEmpty then DEFAULT_LOGO else d0.logo }
    let warnings := profileWarnings d
    { success := true, data := some d,
      error := if !warnings.isEmpty then
          some { issues := warnings, message := txt "Profile has warnings" }
        else none }
  else
    { success := false, data := none,
      error := some { issues := parsed.1.map profileIssueToValidation,
                      message := txt "Profile validation failed" } }

/-- The per-issue code override in `validateBPod`'s failure branch. -/
def bPodIssueToValidation (zi : ZodIssue) : ValidationIssue :=
  let code :=
    if zi.path.contains (txt "name") &&
        (zi.code = txt "missing" || zi.code = txt "invalid_type") then
      ErrorCode.BPOD_NAME_REQUIRED
    else if zi.path.contains (txt "accepts") && zi.code = txt "too_small" then
      ErrorCode.BPOD_ACCEPTS_EMPTY
    else if zi.path.contains (txt "api") && zi.path.contains (txt "url") &&
        zi.code = txt "invalid_string" then
      ErrorCode.BPOD_API_URL_INVALID
    else mapZodErrorToCode zi.code
  { message := zi.message, path := zi.path, code := code,
    received := zi.received, expected := none }

/-- The advisory warnings computed on a successfully validated service. -/
def bPodWarnings (d : BPodData) : List ValidationIssue :=
  (if d.description.isNone then
     [({ message := txt "BPod is missing a description", path := [txt "description"],
         code := WarningCode.BPOD_MISSING_DESCRIPTION, received := none,
         expected := some (txt "Description string") } : ValidationIssue)]
   else []) ++
  (if d.tags.isNone || (d.tags.getD []).isEmpty then
     [({ message := txt "BPod is missing tags", path := [txt "tags"],
         code := WarningCode.BPOD_MISSING_TAGS, received := none,
         expected := some (txt "Array of tag strings") } : ValidationIssue)]
   else []) ++
  (if d.api.headers.isNone || (d.api.headers.getD []).isEmpty then
     [({ message := txt "API is missing custom headers", path := [txt "api", txt "headers"],
         code := WarningCode.API_MISSING_HEADERS, received := none,
         expected := some (txt "Custom headers object") } : ValidationIssue)]
   else []) ++
  (if d.api.timeout.isNone then
     [({ message := txt "API is missing timeout configuration",
         path := [txt "api", txt "timeout"],
         code := WarningCode.API_MISSING_TIMEOUT, received := none,
         expected := some (txt "Timeout in milliseconds") } : ValidationIssue)]
   else [])

/-- `validateBPod(bPod)`. -/
def validateBPod (j : Json) : ValidationResult BPodData :=
  let parsed := bPodParse j
  if parsed.1.isEmpty then
    let d := parsed.2
    let warnings := bPodWarnings d
    { success := true, data := some d,
      error := if !warnings.isEmpty then
          some { issues := warnings, message := txt "BPod has warnings" }
        else none }
  else
    { success := false, data := none,
      error := some { issues := parsed.1.map bPodIssueToValidation,
                      message := txt "BPod validation failed" } }

/-- `validateFileExtensions(extensions)`. -/
def validateFileExtensions (extensions : List Str) : ValidationResult (List Str) :=
  let invalidExtensions := extensions.filter (fun ext => !isLowerAlnum ext)
  if !invalidExtensions.isEmpty then
    { success := false,
      error := some
        { issues := [{ message := txt "Invalid file extensions: " ++
                         joinSep (txt ", ") invalidExtensions,
                       path := [txt "accepts"],
                       code := ErrorCode.BPOD_ACCEPTS_INVALID_FORMAT,
                       received := some (joinSep (txt ", ") invalidExtensions),
                       expected := some (txt "Lowercase alphanumeric extensions without dots") }],
          message := txt "File extension validation failed" } }
  else { success := true, data := some extensions }

/-- `validateBodyTemplate(template, fileParams)`. -/
def validateBodyTemplate (template : List (Str × Str)) (fileParams : List Str) :
    ValidationResult (List (Str × Str)) :=
  let requiredParams :=
    txt "\x7bwebhook_url\x7d" :: fileParams.map (fun p => lbrace :: p ++ [rbrace])
  let missingParams := requiredParams.filter
    (fun param => !template.any (fun kv => containsSub kv.2 param))
  if !missingParams.isEmpty then
    { success := false,
      error := some
        { issues := [{ message := txt "Missing required parameters in body template: " ++
                         joinSep (txt ", ") missingParams,
                       path := [txt "api", txt "bodyTemplate"],
                       code := ErrorCode.BPOD_API_BODY_TEMPLATE_MISSING_WEBHOOK,
                       received := some (joinSep (txt ", ") (template.map Prod.fst)),
                       expected := some (joinSep (txt ", ") requiredParams) }],
          message := txt "Body template validation failed" } }
  else { success := true, data := some template }

end Bui

namespace Bui

/-!
### Environment: file system and working directory

`fs` reads are modelled by a finite map from absolute normalized paths to
contents; reads of existing files never fail, so the defensive
`FILE_READ_ERROR` catch branches of the source are unreachable in the model.
-/

/-- Execution environment: Node working directory plus the file system. -/
structure Env where
  cwd : Str
  files : List (Str × Str)

/-- Look up an absolute normalized path. -/
def fsLookup (env : Env) (p : Str) : Option Str :=
  (env.files.find? (fun q => q.1 = p)).map Prod.snd

/-- `fs.existsSync(p)` (the OS resolves `p` against the working directory). -/
def existsSync (env : Env) (p : Str) : Bool :=
  (fsLookup env (pathResolve env.cwd [p])).isSome

/-- `fs.readFileSync(p, "utf8")` for an existing file. -/
def readFileSync (env : Env) (p : Str) : Str :=
  (fsLookup env (pathResolve env.cwd [p])).getD []

/-- `fs.statSync(p).size` (byte size modelled as character count). -/
def statSize (env : Env) (p : Str) : Nat := (readFileSync env p).length

/-- `CompileOptions` (the fields the core reads). -/
structure CompileOptions where
  withMetadata : Bool := false
  maxFileSize : Option Nat := none
  maxFiles : Option Nat := none
  content : Option Str := none

/-- JS `options.x || default` for numeric options (`0` is falsy). -/
def jsOrDefault (v : Option Nat) (d : Nat) : Nat :=
  match v with
  | some n => if n = 0 then d else n
  | none => d

/-- Generic JS object assignment on a string-keyed map: existing keys keep
their position, fresh keys are appended. -/
def jsMapSet {A : Type} (l : List (Str × A)) (k : Str) (v : A) : List (Str × A) :=
  if l.any (fun p => p.1 = k) then
    l.map (fun p => if p.1 = k then (k, v) else p)
  else l ++ [(k, v)]

/-!
### Model of `src/core/merger.ts`
-/

/-- The `stats` component of a `MergeResult`. -/
structure MergeStats where
  totalFiles : Nat
  totalSize : Nat
  fileSizes : List (Str × Nat)

/-- `MergeResult`. -/
structure MergeResult where
  mergedContent : Str
  includedFiles : List Str
  errors : List CompilerError
  warnings : List CompilerWarning
  stats : MergeStats

/-- `removeFilesBlock(content)`. -/
def removeFilesBlock (content : Str) : Str :=
  let blocks := splitDashLines content
  let filteredBlocks := blocks.filter (fun b => !jsStartsWith (trimStr b) (txt "files:"))
  if filteredBlocks.length = blocks.length then content
  else joinSep (txt "\n---\n") (filteredBlocks.filter (fun b => !b.isEmpty))

/-- `extractBPodsFromContent(content)`. -/
def extractBPodsFromContent (content : Str) : List Str :=
  let blocks := splitDashLines content
  let bpodBlocks := blocks.filter (fun block =>
    jsStartsWith (trimStr block) (txt "b-pod:") &&
    !jsStartsWith (trimStr block) (txt "version:") &&
    !jsStartsWith (trimStr block) (txt "profile:") &&
    !jsStartsWith (trimStr block) (txt "files:"))
  (bpodBlocks.map trimStr).filter (fun b => !b.isEmpty)

/-- The literal `W004` circular-dependency warning pushed by the merger. -/
def circularWarning (filePath resolved : Str) : CompilerWarning :=
  { message := txt "Circular dependency detected: " ++ filePath,
    line := 0, column := 0, severity := txt "warning", code := txt "W004",
    file := some resolved,
    context := some (txt "File " ++ filePath ++ txt " is already included"),
    suggestion := some (txt "Remove duplicate file references") }

/-- Accumulator of the merger's per-file loop. -/
structure MergeLoopState where
  errors : List CompilerError
  warnings : List CompilerWarning
  includedFiles : List Str
  fileSizes : List (Str × Nat)
  mergedContent : Str
  totalSize : Nat

/-- One iteration of the `for (const filePath of fileList)` loop in
`mergeBuiFiles`. -/
def mergeStep (env : Env) (entryAbs : Str) (maxFileSize : Nat)
    (st : MergeLoopState) (filePath : Str) : MergeLoopState :=
  let resolved := pathResolve env.cwd [pathDirname entryAbs, filePath]
  if st.includedFiles.contains resolved then
    { st with warnings := st.warnings ++ [circularWarning filePath resolved] }
  else if !existsSync env resolved then
    { st with errors := st.errors ++
        [createError ErrorCode.FILE_NOT_FOUND
          (txt "Included file not found: " ++ resolved)
          (createParseContext filePath [] 0)] }
  else
    let size := statSize env resolved
    if maxFileSize < size then
      { st with errors := st.errors ++
          [createError ErrorCode.FILE_TOO_LARGE
            (txt "File too large: " ++ filePath ++ txt " (" ++ natToStr size ++
             txt " bytes, max: " ++ natToStr maxFileSize ++ txt " bytes)")
            (createParseContext filePath [] 0)] }
    else
      let content := readFileSync env resolved
      let extractedBPods := extractBPodsFromContent content
      { st with
        fileSizes := jsMapSet st.fileSizes resolved size,
        totalSize := st.totalSize + size,
        mergedContent :=
          if extractedBPods.length > 0 then
            st.mergedContent ++ txt "\n---\n" ++ joinSep (txt "\n---\n") extractedBPods
          else st.mergedContent,
        includedFiles := st.includedFiles ++ [resolved] }

/-- `mergeBuiFiles(entryPath, fileList, options)`. -/
def mergeBuiFiles (env : Env) (entryPath : Str) (fileList : List Str)
    (options : CompileOptions) : MergeResult :=
  let entryAbs := pathResolve env.cwd [entryPath]
  if !existsSync env entryAbs then
    { mergedContent := [], includedFiles := [],
      errors := [createError ErrorCode.FILE_NOT_FOUND
        (txt "Entry file not found: " ++ entryPath)
        (createParseContext entryPath [] 0)],
      warnings := [],
      stats := { totalFiles := 0, totalSize := 0, fileSizes := [] } }
  else
    let entrySize := statSize env entryAbs
    let maxFileSize := jsOrDefault options.maxFileSize (1024 * 1024)
    let errs0 :=
      if maxFileSize < entrySize then
        [createError ErrorCode.FILE_TOO_LARGE
          (txt "Entry file too large: " ++ natToStr entrySize ++
           txt " bytes (max: " ++ natToStr maxFileSize ++ txt " bytes)")
          (createParseContext entryPath [] 0)]
      else []
    let maxFiles := jsOrDefault options.maxFiles 100
    let errs1 := errs0 ++
      (if maxFiles < fileList.length then
        [createError ErrorCode.TOO_MANY_FILES
          (txt "Too many files: " ++ natToStr fileList.length ++
           txt " (max: " ++ natToStr maxFiles ++ txt ")")
          (createParseContext entryPath [] 0)]
      else [])
    let entryContent := readFileSync env entryAbs
    let st0 : MergeLoopState :=
      { errors := errs1, warnings := [], includedFiles := [entryAbs],
        fileSizes := [(entryAbs, entrySize)],
        mergedContent := removeFilesBlock entryContent, totalSize := entrySize }
    let st := fileList.foldl (mergeStep env entryAbs maxFileSize) st0
    { mergedContent := st.mergedContent, includedFiles := st.includedFiles,
      errors := st.errors, warnings := st.warnings,
      stats := { totalFiles := st.includedFiles.length, totalSize := st.totalSize,
                 fileSizes := st.fileSizes } }

/-- Result of `validateFilePath`. -/
structure PathValidation where
  valid : Bool
  error : Option Str := none

/-- `validateFilePath(filePath, baseDir)` — identical copies live in
`parser.ts` and `merger.ts`; both are this function. -/
def validateFilePath (cwd : Str) (filePath baseDir : Str) : PathValidation :=
  let resolved := pathResolve cwd [baseDir, filePath]
  let baseResolved := pathResolve cwd [baseDir]
  if !jsStartsWith resolved baseResolved then
    { valid := false, error := some (txt "Path traversal detected") }
  else
    let ext := toLowerStr (pathExtname filePath)
    if ext ≠ txt ".bui" then
      { valid := false,
        error := some (txt "Only .bui files are supported, got: " ++ ext) }
    else { valid := true }

end Bui

namespace Bui

/-!
### Model of `src/core/parser.ts`
-/

/-- `splitBlocks(content)`. -/
def splitBlocks (content : Str) : List Str :=
  ((splitDashLines content).map trimStr).filter (fun b => !b.isEmpty)

/-- `block.replace(/^KW\s*:\s*/, "")` for a keyword `kw` (without colon):
strips the head only when the anchored pattern matches. -/
def stripDeclHead (kw : Str) (block : Str) : Str :=
  if jsStartsWith block kw then
    match (block.drop kw.length).dropWhile isWsChar with
    | ':' :: r2 => r2.dropWhile isWsChar
    | _ => block
  else block

/-- `parseFilesBlock(block)`: `Except` models the `throw` (the message of a
raw `JSON.parse` syntax error is JS-engine specific and represented by a
fixed placeholder). -/
def parseFilesBlock (block : Str) : Except Str (List Str) :=
  let rawJson := trimStr (stripDeclHead (txt "files") block)
  match jsonParse rawJson with
  | none => .error (txt "Invalid JSON format for files block: Unexpected token in JSON")
  | some j =>
    match j with
    | .arr l =>
      if !(l.all (fun f => match f with | .str _ => true | _ => false)) then
        .error (txt "Invalid JSON format for files block: files array must contain only strings")
      else if l.isEmpty then
        .error (txt "Invalid JSON format for files block: files array cannot be empty")
      else
        .ok (l.filterMap (fun f => match f with | .str s => some s | _ => none))
    | _ => .error (txt "Invalid JSON format for files block: files must be a JSON array")

/-- The match `/^b-pod\s*:\s*"([^"]+)"/` on a block, returning the capture. -/
def bPodNameCapture (block : Str) : Option Str :=
  if jsStartsWith block (txt "b-pod") then
    match (block.drop 5).dropWhile isWsChar with
    | ':' :: r2 =>
      match r2.dropWhile isWsChar with
      | '"' :: r3 =>
        let cap := r3.takeWhile (· ≠ '"')
        if cap.isEmpty then none
        else
          match r3.dropWhile (· ≠ '"') with
          | '"' :: _ => some cap
          | _ => none
      | _ => none
    | _ => none
  else none

/-- The match `/\{([\s\S]*)\}$/` on a block: everything strictly between the
first opening brace and a closing brace that ends the block. -/
def bPodBodyCapture (block : Str) : Option Str :=
  match indexOfSub block [lbrace] with
  | none => none
  | some i =>
    if block.getLastD ' ' = rbrace && i + 1 < block.length then
      some ((block.drop (i + 1)).dropLast)
    else none

/-- The raw service object `{ name, ...json }` (a later `name` key in the
JSON body overrides the extracted one, as JS spread does). -/
def mkBPodObject (name : Str) (j : Json) : Json :=
  match j with
  | .obj fields =>
    .obj (fields.foldl (fun acc p => jsMapSet acc p.1 p.2) [(txt "name", Json.str name)])
  | _ => j

/-- `bp.name` on a raw service object, as compared by `bp.name === name`. -/
def bpStoredName (j : Json) : Option Str :=
  match j with
  | .obj f =>
    match objGet f (txt "name") with
    | some (.str s) => some s
    | _ => none
  | _ => none

/-- `bPod.accepts` read back off the raw object (guaranteed to be an array of
strings whenever `validateBPod` succeeded, which is the only call site). -/
def bpAcceptsRaw (j : Json) : List Str :=
  match j with
  | .obj f =>
    match objGet f (txt "accepts") with
    | some (.arr l) => l.filterMap (fun v => match v with | .str s => some s | _ => none)
    | _ => []
  | _ => []

/-- `bPod.api.<k>` on the raw object. -/
def bpApiField (j : Json) (k : Str) : Option Json :=
  match j with
  | .obj f =>
    match objGet f (txt "api") with
    | some (.obj af) => objGet af k
    | _ => none
  | _ => none

/-- `bPod.api.bodyTemplate` off the raw object (string values). -/
def bpBodyTemplateRaw (j : Json) : List (Str × Str) :=
  match bpApiField j (txt "bodyTemplate") with
  | some (.obj l) =>
    l.filterMap (fun p => match p.2 with | .str s => some (p.1, s) | _ => none)
  | _ => []

/-- `bPod.api.fileParams` off the raw object. -/
def bpFileParamsRaw (j : Json) : List Str :=
  match bpApiField j (txt "fileParams") with
  | some (.arr l) => l.filterMap (fun v => match v with | .str s => some s | _ => none)
  | _ => []

/-- The document under construction plus the scanning state of
`parseMergedContentWithSources` (`errors`, `warnings`, `bPods`,
`bPodFileMap`, `profile`, `version`, `currentFile`, `lineOffset`). -/
structure PMState where
  errors : List CompilerError := []
  warnings : List CompilerWarning := []
  bPods : List Json := []
  bPodFileMap : List (Str × Str) := []
  profile : Option ProfileData := none
  version : Str := txt "1.0.0"
  currentFile : Str := []
  lineOffset : Nat := 0

/-- Processing of one block inside `blocks.forEach((block, blockIndex) => …)`
of `parseMergedContentWithSources`. -/
def processBlock (includedFiles : List Str) (context : ParseContext)
    (st : PMState) (blockIndex : Nat) (block : Str) : PMState :=
  let blockContext := updateParseContext context (blockIndex + 1) 1
  let entryFile := includedFiles.headD []
  if !block.contains ':' then
    { st with errors := st.errors ++
        [createError ErrorCode.MISSING_COLON
          (txt "Missing colon in declaration: " ++ (jsSplitChar '\n' block).headD [])
          blockContext
          (some (txt "Each declaration should follow the format: 'type: value'"))] }
  else if jsStartsWith block (txt "version:") && st.currentFile = entryFile then
    let versionValue := trimStr ((stripDeclHead (txt "version") block).filter (· ≠ '"'))
    if versionValue ≠ txt "1.0.0" then
      { st with errors := st.errors ++
          [createError ErrorCode.INVALID_VERSION
            (txt "Invalid version: " ++ versionValue ++ txt ", expected \"1.0.0\"")
            blockContext (some (txt "Use version: \"1.0.0\""))] }
    else { st with version := versionValue }
  else if jsStartsWith block (txt "profile:") && st.currentFile = entryFile then
    match jsonParse (stripDeclHead (txt "profile") block) with
    | some json =>
      let result := validateProfile json
      if result.success then
        let st2 := { st with profile := result.data }
        match result.error with
        | some err =>
          { st2 with warnings := st2.warnings ++ err.issues.map (fun issue =>
              createWarning issue.code issue.message blockContext
                (issue.expected.map (fun e => txt "Consider adding: " ++ e))) }
        | none => st2
      else
        { st with errors := st.errors ++
            ((result.error.map ValError.issues).getD []).map (fun issue =>
              createError issue.code issue.message blockContext
                (issue.expected.map (fun e => txt "Expected: " ++ e))) }
    | none =>
      { st with errors := st.errors ++
          [createError ErrorCode.INVALID_PROFILE_JSON
            (txt "Invalid profile JSON: Unexpected token in JSON")
            blockContext (some (txt "Ensure the profile block contains valid JSON"))] }
  else if jsStartsWith block (txt "b-pod:") then
    let nameOutcome :=
      match bPodNameCapture block with
      | none => none
      | some cap => if (trimStr cap).isEmpty then none else some (trimStr cap)
    match nameOutcome with
    | none =>
      { st with errors := st.errors ++
          [createError ErrorCode.MISSING_BPOD_NAME (txt "BPod name is required")
            blockContext (some (txt "Use format: b-pod: \"Name\" \x7b ... \x7d"))] }
    | some name =>
      if st.bPods.any (fun bp => bpStoredName bp = some name) then
        { st with errors := st.errors ++
            [createError ErrorCode.DUPLICATE_BPOD_NAME
              (txt "Duplicate b-pod name: " ++ name)
              blockContext (some (txt "Ensure each BPod has a unique name"))] }
      else
        match bPodBodyCapture block with
        | none =>
          { st with errors := st.errors ++
              [createError ErrorCode.INVALID_BPOD_JSON (txt "BPod body missing")
                blockContext (some (txt "Use format: b-pod: \"Name\" \x7b ... \x7d"))] }
        | some body =>
          match jsonParse (lbrace :: body ++ [rbrace]) with
          | none =>
            { st with errors := st.errors ++
                [createError ErrorCode.INVALID_BPOD_JSON
                  (txt "Invalid b-pod JSON for " ++ name ++ txt ": Unexpected token in JSON")
                  blockContext (some (txt "Ensure the BPod block contains valid JSON"))] }
          | some json =>
            let bPod := mkBPodObject name json
            let result := validateBPod bPod
            if result.success then
              let fileExtResult := validateFileExtensions (bpAcceptsRaw bPod)
              if !fileExtResult.success then
                { st with errors := st.errors ++
                    ((fileExtResult.error.map ValError.issues).getD []).map (fun issue =>
                      createError issue.code issue.message blockContext issue.expected) }
              else
                let bodyTemplateResult :=
                  validateBodyTemplate (bpBodyTemplateRaw bPod) (bpFileParamsRaw bPod)
                if !bodyTemplateResult.success then
                  { st with errors := st.errors ++
                      ((bodyTemplateResult.error.map ValError.issues).getD []).map (fun issue =>
                        createError issue.code issue.message blockContext issue.expected) }
                else
                  let st2 := { st with
                    bPods := st.bPods ++ [bPod],
                    bPodFileMap := jsMapSet st.bPodFileMap name st.currentFile }
                  match result.error with
                  | some err =>
                    { st2 with warnings := st2.warnings ++ err.issues.map (fun issue =>
                        createWarning issue.code issue.message blockContext
                          (issue.expected.map (fun e => txt "Consider adding: " ++ e))) }
                  | none => st2
            else
              { st with errors := st.errors ++
                  ((result.error.map ValError.issues).getD []).map (fun issue =>
                    createError issue.code issue.message blockContext
                      (issue.expected.map (fun e => txt "Expected: " ++ e))) }
  else if (jsStartsWith block (txt "version:") || jsStartsWith block (txt "profile:")) &&
      st.currentFile ≠ entryFile then
    { st with errors := st.errors ++
        [createError ErrorCode.INVALID_SYNTAX
          ((jsSplitChar ':' block).headD [] ++ txt " declarations are only allowed in index.bui")
          blockContext
          (some (txt "Move version and profile declarations to index.bui only"))] }
  else st

/-- Processing of one section inside
`fileSections.forEach((section, sectionIndex) => …)`. -/
def processSection (cwd : Str) (includedFiles : List Str) (content : Str)
    (st : PMState) (sec : Str) : PMState :=
  if (trimStr sec).isEmpty then st
  else if (trimStr sec).length < 200 && includedFiles.length > 1 &&
      includedFiles.contains (pathResolve cwd [trimStr sec]) then
    { st with
      currentFile := pathResolve cwd [trimStr sec],
      lineOffset :=
        match indexOfSub content sec with
        | some i => ((jsSplitChar '\n' content).take i).length
        | none => st.lineOffset }
  else
    let context := createParseContext st.currentFile sec st.lineOffset
    (splitBlocks sec).enum.foldl
      (fun s p => processBlock includedFiles context s p.1 p.2) st

/-- The document (`ast`) of a `CompileResult`. -/
structure Ast where
  version : Str
  profile : Option ProfileData := none
  bPods : List Json

/-- `CompileResult.metadata`. -/
structure Metadata where
  includedFiles : List Str
  bPodFileMap : List (Str × Str)
  parseTime : Nat
  totalSize : Nat
  warnings : List CompilerWarning

/-- `CompileResult`. -/
structure CompileResult where
  ast : Ast
  metadata : Option Metadata := none
  errors : List CompilerError
  warnings : List CompilerWarning
  success : Bool

/-- `parseMergedContentWithSources(content, includedFiles, options, startTime,
stats)`.  The debug `content === undefined` guard of the source is dead for
the (string-typed) callers and not modelled; `parseTime` (wall clock) is
modelled as 0. -/
def parseMergedContentWithSources (cwd : Str) (content : Str)
    (includedFiles : List Str) (options : CompileOptions) (startTime : Nat)
    (stats : MergeStats) : CompileResult :=
  let st0 : PMState := { currentFile := includedFiles.headD [], lineOffset := 0 }
  let st := (splitFileSections content).foldl (processSection cwd includedFiles content) st0
  let parseTime := 0 + 0 * startTime
  let ast : Ast := { version := st.version, profile := st.profile, bPods := st.bPods }
  let success := (st.errors.filter (fun e => e.severity = txt "error")).isEmpty
  let base : CompileResult :=
    { ast := ast, errors := st.errors, warnings := st.warnings, success := success }
  let md : Metadata :=
    { includedFiles := includedFiles, bPodFileMap := st.bPodFileMap,
      parseTime := parseTime, totalSize := stats.totalSize,
      warnings := st.warnings }
  if options.withMetadata then { base with metadata := some md }
  else base

/-- The empty document returned on early failures. -/
def emptyAst : Ast := { version := txt "1.0.0", bPods := [] }

/-- The file-system branch of `parseBUI` (everything after the direct-content
check). -/
def parseBUIFileMode (env : Env) (entryPath : Str) (options : CompileOptions) :
    CompileResult :=
  if !existsSync env entryPath then
    { ast := emptyAst,
      errors := [createError ErrorCode.FILE_NOT_FOUND
        (txt "Entry file not found: " ++ entryPath)
        (createParseContext entryPath [] 0)],
      warnings := [], success := false }
  else
    let fileName := pathBasename entryPath
    if fileName ≠ txt "index.bui" then
      { ast := emptyAst,
        errors := [createError ErrorCode.INVALID_FILE_PATH
          (txt "Only index.bui files can be used as entry points. Got: " ++ fileName)
          (createParseContext entryPath [] 0)
          (some (txt "Rename your file to index.bui or use index.bui as the entry point"))],
        warnings := [], success := false }
    else
      let fileContent := readFileSync env entryPath
      let blocks := splitBlocks fileContent
      match blocks.find? (fun b => jsStartsWith (trimStr b) (txt "files:")) with
      | some filesBlock =>
        match parseFilesBlock filesBlock with
        | .error msg =>
          -- The catch handler builds its diagnostic from
          -- `createParseContext(entryPath, content, 0)` where `content` is the
          -- direct-content option.  In file-system mode that variable is
          -- `undefined`, so `createError` → `extractContext` evaluates
          -- `undefined.split('\n')` and throws a TypeError, which the outer
          -- catch of `parseBUI` turns into a single UNKNOWN_ERROR; we model
          -- that control flow by the case split below.
          match options.content with
          | some c =>
            { ast := emptyAst,
              errors := [createError ErrorCode.INVALID_FILES_BLOCK
                (txt "Failed to parse files block: " ++ msg)
                (createParseContext entryPath c 0)],
              warnings := [], success := false }
          | none =>
            { ast := emptyAst,
              errors := [createError ErrorCode.UNKNOWN_ERROR
                (txt "Unexpected error: Cannot read properties of undefined (reading 'split')")
                (createParseContext entryPath [] 0)],
              warnings := [], success := false }
        | .ok fileList =>
          let baseDir := pathDirname entryPath
          let pathErrors := fileList.filterMap (fun filePath =>
            let validation := validateFilePath env.cwd filePath baseDir
            if !validation.valid then
              some (createError ErrorCode.INVALID_FILE_PATH
                (txt "Invalid file path: " ++ filePath ++ txt " - " ++
                 (validation.error.getD []))
                (createParseContext filePath [] 0))
            else none)
          if !pathErrors.isEmpty then
            { ast := emptyAst, errors := pathErrors, warnings := [], success := false }
          else
            let merged := mergeBuiFiles env entryPath fileList options
            if !merged.errors.isEmpty then
              { ast := emptyAst, errors := pathErrors ++ merged.errors,
                warnings := merged.warnings, success := false }
            else
              -- Note: on this success path the source returns the fresh
              -- result of parseMergedContentWithSources directly, discarding
              -- the `warnings` it just collected from the merger.
              parseMergedContentWithSources env.cwd merged.mergedContent
                merged.includedFiles options 0 merged.stats
      | none =>
        parseMergedContentWithSources env.cwd fileContent
          [pathResolve env.cwd [entryPath]] options 0
          { totalFiles := 1, totalSize := fileContent.length,
            fileSizes := [(pathResolve env.cwd [entryPath], fileContent.length)] }

/-- `parseBUI(entryPath, options)`. -/
def parseBUI (env : Env) (entryPath : Str) (options : CompileOptions) :
    CompileResult :=
  match options.content with
  | some c =>
    if !c.isEmpty then
      let blocks := splitBlocks c
      match blocks.find? (fun b => jsStartsWith (trimStr b) (txt "files:")) with
      | some _ =>
        { ast := emptyAst,
          errors := [createError ErrorCode.INVALID_SYNTAX
            (txt "Multi-file projects are not supported in direct content mode")
            (createParseContext entryPath c 0)],
          warnings := [], success := false }
      | none =>
        parseMergedContentWithSources env.cwd c [entryPath] options 0
          { totalFiles := 1, totalSize := c.length, fileSizes := [(entryPath, c.length)] }
    else parseBUIFileMode env entryPath options
  | none => parseBUIFileMode env entryPath options

end Bui

namespace Bui

/-!
### Definitions used in claim statements
-/

/-- Number of diagnostics carrying a given code. -/
def countCode (l : List CompilerError) (c : Str) : Nat :=
  (l.filter (fun e => e.code = c)).length

/-- Modelled from the spec: invariant I4 reads "every included file path
resolves inside the entry file's directory subtree"; a resolved path is
inside the subtree of the (resolved) base directory when it is the base
itself or extends it at a path-separator boundary.  This is the
specification-side notion that `validateFilePath`'s string-prefix test is
compared against. -/
def insideEntrySubtree (cwd base filePath : Str) : Bool :=
  let resolved := pathResolve cwd [base, filePath]
  let baseResolved := pathResolve cwd [base]
  resolved = baseResolved || jsStartsWith resolved (baseResolved ++ [('/' : Char)])

/-- A diagnostic message about the body template (all three body-template
messages of the validator contain this phrase). -/
def isBodyTemplateMsg (m : Str) : Bool :=
  containsSub (toLowerStr m) (txt "body template")

/-- Whether a block is classified as a `version:` declaration. -/
def isVersionDecl (b : Str) : Bool := jsStartsWith b (txt "version:")

/-- The version literal the parser extracts from a `version:` block. -/
def versionValueOf (b : Str) : Str :=
  trimStr ((stripDeclHead (txt "version") b).filter (· ≠ '"'))

end Bui

namespace Bui

/-!
### Concrete inputs used by claim witnesses and counterexamples
-/

/-- A service block whose `bodyTemplate` omits the `\x7bf\x7d` placeholder of its
declared file parameter `f`. -/
def wBlockC6 : Str := txt "b-pod: \"W\" \x7b\"accepts\": [\"txt\"], \"submit\": \x7b \"label\": \"P\", \"action\": \"a\" \x7d, \"api\": \x7b \"url\": \"https://x.co/a\", \"method\": \"POST\", \"fileParams\": [\"f\"], \"bodyTemplate\": \x7b \"b\": \"\x7bwebhook_url\x7d\" \x7d, \"responseType\": \"file\" \x7d \x7d"

/-- The JSON body captured from `wBlockC6`. -/
def wBodyC6 : Str := (bPodBodyCapture wBlockC6).getD []

/-- The parsed JSON body of `wBlockC6`. -/
def wJsonC6 : Json := (jsonParse (lbrace :: wBodyC6 ++ [rbrace])).getD Json.null

/-- An entry content declaring no `version:` block: one fully valid service. -/
def c9content : Str := txt "b-pod: \"W\" \x7b\"accepts\": [\"txt\"], \"submit\": \x7b \"label\": \"P\", \"action\": \"a\" \x7d, \"api\": \x7b \"url\": \"https://x.co/a\", \"method\": \"POST\", \"fileParams\": [\"f\"], \"bodyTemplate\": \x7b \"b\": \"\x7bwebhook_url\x7d \x7bf\x7d\" \x7d, \"responseType\": \"file\" \x7d \x7d"

/-- A fully valid service named `W` whose API URL ends in `/a`. -/
def b1a : Str := txt "b-pod: \"W\" \x7b\"accepts\": [\"txt\"], \"submit\": \x7b \"label\": \"P\", \"action\": \"a\" \x7d, \"api\": \x7b \"url\": \"https://x.co/a\", \"method\": \"POST\", \"fileParams\": [\"f\"], \"bodyTemplate\": \x7b \"b\": \"\x7bwebhook_url\x7d \x7bf\x7d\" \x7d, \"responseType\": \"file\" \x7d \x7d"

/-- A service named `W` (URL ending in `/a`) whose body template omits the
`\x7bf\x7d` placeholder, so it fails validation and is never added. -/
def b1bad : Str := txt "b-pod: \"W\" \x7b\"accepts\": [\"txt\"], \"submit\": \x7b \"label\": \"P\", \"action\": \"a\" \x7d, \"api\": \x7b \"url\": \"https://x.co/a\", \"method\": \"POST\", \"fileParams\": [\"f\"], \"bodyTemplate\": \x7b \"b\": \"\x7bwebhook_url\x7d\" \x7d, \"responseType\": \"file\" \x7d \x7d"

/-- A fully valid service also named `W`, whose API URL ends in `/b`. -/
def b2dup : Str := txt "b-pod: \"W\" \x7b\"accepts\": [\"txt\"], \"submit\": \x7b \"label\": \"P\", \"action\": \"a\" \x7d, \"api\": \x7b \"url\": \"https://x.co/b\", \"method\": \"POST\", \"fileParams\": [\"f\"], \"bodyTemplate\": \x7b \"b\": \"\x7bwebhook_url\x7d \x7bf\x7d\" \x7d, \"responseType\": \"file\" \x7d \x7d"

/-- Two same-named services, the first one valid. -/
def c4good : Str := b1a ++ txt "\n---\n" ++ b2dup

/-- Two same-named services, the first one invalid. -/
def c4bad : Str := b1bad ++ txt "\n---\n" ++ b2dup

/-- An entry file whose `files:` block lists the same path twice. -/
def idx5 : Str := txt "files: [\"b.bui\", \"b.bui\"]"

/-- The doubly-listed included file: one valid service named `B`. -/
def bfile5 : Str := txt "b-pod: \"B\" \x7b\"accepts\": [\"txt\"], \"submit\": \x7b \"label\": \"P\", \"action\": \"a\" \x7d, \"api\": \x7b \"url\": \"https://x.co/a\", \"method\": \"POST\", \"fileParams\": [\"f\"], \"bodyTemplate\": \x7b \"b\": \"\x7bwebhook_url\x7d \x7bf\x7d\" \x7d, \"responseType\": \"file\" \x7d \x7d"

/-- A project whose entry lists `b.bui` twice. -/
def env5 : Env :=
  { cwd := txt "/proj",
    files := [(txt "/proj/index.bui", idx5), (txt "/proj/b.bui", bfile5)] }

/-- An entry file whose `files:` block escapes the entry directory into the
sibling directory `based` (a string-prefix sibling of `base`). -/
def idx1 : Str := txt "files: [\"../based/evil.bui\"]"

/-- The escaped file: one valid service named `E`. -/
def evil1 : Str := txt "b-pod: \"E\" \x7b\"accepts\": [\"txt\"], \"submit\": \x7b \"label\": \"P\", \"action\": \"a\" \x7d, \"api\": \x7b \"url\": \"https://x.co/a\", \"method\": \"POST\", \"fileParams\": [\"f\"], \"bodyTemplate\": \x7b \"b\": \"\x7bwebhook_url\x7d \x7bf\x7d\" \x7d, \"responseType\": \"file\" \x7d \x7d"

/-- A project rooted at `/root/proj/base` next to a sibling `/root/proj/based`. -/
def env1 : Env :=
  { cwd := txt "/root/proj/base",
    files := [(txt "/root/proj/base/index.bui", idx1),
              (txt "/root/proj/based/evil.bui", evil1)] }

/-- An entry file whose `files:` block is an empty JSON array. -/
def idx10 : Str := txt "files: []"

/-- A project whose entry declares the empty `files:` block. -/
def env10 : Env := { cwd := txt "/p", files := [(txt "/p/index.bui", idx10)] }

end Bui

namespace Bui

/-!
### Claim C7 — only `index.bui` may be the entry point
-/

/-- Claim C7: for every environment and existing entry file whose basename is
not `index.bui`, `parseBUI` (file-system mode) returns `success = false`,
a single INVALID_FILE_PATH (E305) error and an empty service list. -/
theorem claim_C7_entry_must_be_index (env : Env) (entryPath : Str)
    (options : CompileOptions)
    (hc : options.content = none)
    (hex : existsSync env entryPath = true)
    (hname : pathBasename entryPath ≠ txt "index.bui") :
    (parseBUI env entryPath options).success = false ∧
    (parseBUI env entryPath options).errors.map (fun e => e.code) =
      [ErrorCode.INVALID_FILE_PATH] ∧
    (parseBUI env entryPath options).ast.bPods = [] := by
  have h : parseBUI env entryPath options =
      { ast := emptyAst,
        errors := [createError ErrorCode.INVALID_FILE_PATH
          (txt "Only index.bui files can be used as entry points. Got: " ++
            pathBasename entryPath)
          (createParseContext entryPath [] 0)
          (some (txt "Rename your file to index.bui or use index.bui as the entry point"))],
        warnings := [], success := false } := by
    rw [parseBUI, hc, parseBUIFileMode, hex]
    simp only [Bool.not_true, Bool.false_eq_true, if_false]
    rw [if_pos hname]
  rw [h]
  simp [emptyAst, createError]

/-- Witness for C7 at a concrete environment. -/
theorem claim_C7_witness :
    ((parseBUI { cwd := txt "/", files := [(txt "/p/main.bui", txt "version: \"1.0.0\"")] }
        (txt "/p/main.bui") {}).success = false ∧
     (parseBUI { cwd := txt "/", files := [(txt "/p/main.bui", txt "version: \"1.0.0\"")] }
        (txt "/p/main.bui") {}).errors.map (fun e => e.code) =
       [ErrorCode.INVALID_FILE_PATH] ∧
     (parseBUI { cwd := txt "/", files := [(txt "/p/main.bui", txt "version: \"1.0.0\"")] }
        (txt "/p/main.bui") {}).ast.bPods = []) :=
  claim_C7_entry_must_be_index _ _ _ rfl (by decide) (by decide)

end Bui

namespace Bui

/-!
### Claim C8 — a GET service can never pass `validateBPod`
-/

/-- A list on which `any` holds is non-empty. -/
theorem any_ne_nil {A : Type} (p : A → Bool) (l : List A) (h : l.any p = true) :
    l ≠ [] := by
  intro hn
  subst hn
  simp at h

/-- The parsed method mirrors the raw `api.method` string field. -/
theorem apiParseCore_method (af : List (Str × Json)) (s : Str)
    (hm : objGet af (txt "method") = some (Json.str s)) :
    (apiParseCore (Json.obj af)).2.method = s := by
  simp only [apiParseCore, hm, zodEnumAt]

/-- With `method = "GET"` the two api refinements cannot both succeed, so the
full `apiSchema` parse always reports an issue. -/
theorem apiParseAt_get_ne (af : List (Str × Json))
    (hm : objGet af (txt "method") = some (Json.str (txt "GET"))) :
    (apiParseAt (Json.obj af)).1 ≠ [] := by
  have hmeth := apiParseCore_method af (txt "GET") hm
  unfold apiParseAt
  cases hr : (apiParseCore (Json.obj af)).1 with
  | cons a l => simp [hr]
  | nil =>
    simp only [hr, List.isEmpty_nil, Bool.not_true, Bool.false_eq_true, if_false]
    by_cases hweb : apiWebhookRefine (apiParseCore (Json.obj af)).2 = true
    · have hne := any_ne_nil _ _ hweb
      have hget : apiGetRefine (apiParseCore (Json.obj af)).2 = false := by
        unfold apiGetRefine
        rw [hmeth]
        simp only [decide_True, Bool.true_and, Bool.not_eq_false]
        simp [List.isEmpty_iff, hne]
      rw [hweb, hget]
      simp
    · rw [Bool.not_eq_true] at hweb
      rw [hweb]
      simp

/-- The `bPodSchema` issue list contains the api issues. -/
theorem bPodParse_api_ne (f : List (Str × Json)) (v : Json)
    (ha : objGet f (txt "api") = some v)
    (hv : (apiParseAt v).1 ≠ []) :
    (bPodParse (Json.obj f)).1 ≠ [] := by
  simp only [bPodParse, bPodParseGen, ha]
  intro h
  rw [List.append_eq_nil, List.append_eq_nil, List.append_eq_nil,
      List.append_eq_nil, List.append_eq_nil, List.append_eq_nil,
      List.append_eq_nil] at h
  exact hv h.1.1.1.2

/-- Claim C8: no service whose raw `api.method` is the string `"GET"` can
pass schema validation: the webhook refinement demands a `bodyTemplate` value
containing the webhook placeholder (so a non-empty template), while the GET
refinement rejects any GET service with a non-empty template, so
`validateBPod` always fails. -/
theorem claim_C8_get_never_validates (j : Json)
    (hm : bpApiField j (txt "method") = some (Json.str (txt "GET"))) :
    (validateBPod j).success = false := by
  have hj : ∃ f af, j = Json.obj f ∧ objGet f (txt "api") = some (Json.obj af) ∧
      objGet af (txt "method") = some (Json.str (txt "GET")) := by
    cases j with
    | obj f =>
      simp only [bpApiField] at hm
      cases hv : objGet f (txt "api") with
      | none => rw [hv] at hm; simp at hm
      | some a =>
        cases a with
        | obj af => exact ⟨f, af, rfl, hv, by rw [hv] at hm; exact hm⟩
        | null => rw [hv] at hm; simp at hm
        | bool b => rw [hv] at hm; simp at hm
        | num q => rw [hv] at hm; simp at hm
        | str s => rw [hv] at hm; simp at hm
        | arr l => rw [hv] at hm; simp at hm
    | null => simp [bpApiField] at hm
    | bool b => simp [bpApiField] at hm
    | num q => simp [bpApiField] at hm
    | str s => simp [bpApiField] at hm
    | arr l => simp [bpApiField] at hm
  obtain ⟨f, af, hjf, hapi, hmeth⟩ := hj
  subst hjf
  have hne := bPodParse_api_ne f (Json.obj af) hapi (apiParseAt_get_ne af hmeth)
  have hfalse : (bPodParse (Json.obj f)).1.isEmpty = false := by
    simp [List.isEmpty_iff, hne]
  simp only [validateBPod, hfalse, Bool.false_eq_true, if_false]

/-- Witness for C8 at a concrete GET service object. -/
theorem claim_C8_witness :
    (validateBPod ((jsonParse (txt "\x7b\"name\": \"G\", \"accepts\": [\"txt\"], \"submit\": \x7b \"label\": \"P\", \"action\": \"a\" \x7d, \"api\": \x7b \"url\": \"https://x.co/a\", \"method\": \"GET\", \"fileParams\": [\"f\"], \"bodyTemplate\": \x7b \"b\": \"\x7bwebhook_url\x7d\" \x7d, \"responseType\": \"file\" \x7d \x7d")).getD Json.null)).success = false :=
  claim_C8_get_never_validates _ (by rfl)

end Bui

namespace Bui

/-!
### Claim C6 — body-template completeness failures block the service
-/

/-- The empty pattern occurs in every string. -/
theorem containsSub_nil (s : Str) : containsSub s [] = true := by
  cases s <;> simp [containsSub, List.isPrefixOf]

/-- A prefix of `l` is a prefix of `l ++ r`. -/
theorem isPrefixOf_append_of (p l r : Str) (h : List.isPrefixOf p l = true) :
    List.isPrefixOf p (l ++ r) = true := by
  rw [List.isPrefixOf_iff_prefix] at h ⊢
  exact h.trans (List.prefix_append l r)

/-- Occurrence in `a` gives occurrence in `a ++ b`. -/
theorem containsSub_append_left (a b pat : Str) (h : containsSub a pat = true) :
    containsSub (a ++ b) pat = true := by
  induction a with
  | nil =>
    simp only [containsSub, List.isEmpty_iff] at h
    subst h
    exact containsSub_nil b
  | cons x t ih =>
    simp only [containsSub, Bool.or_eq_true] at h ⊢
    rcases h with h | h
    · exact Or.inl (isPrefixOf_append_of _ _ _ h)
    · exact Or.inr (ih h)

/-- Lowercasing distributes over append. -/
theorem toLowerStr_append (a b : Str) :
    toLowerStr (a ++ b) = toLowerStr a ++ toLowerStr b := by
  simp [toLowerStr]

/-- A message starting with a body-template phrase is a body-template
message. -/
theorem isBodyTemplateMsg_of_lead (a b : Str) (h : isBodyTemplateMsg a = true) :
    isBodyTemplateMsg (a ++ b) = true := by
  unfold isBodyTemplateMsg at h ⊢
  rw [toLowerStr_append]
  exact containsSub_append_left _ _ _ h

/-- The claim's omission condition: some required placeholder (webhook or a
declared file parameter) occurs in no `bodyTemplate` value. -/
def omitsRequiredParam (template : List (Str × Str)) (fileParams : List Str) : Prop :=
  ∃ param ∈ (txt "\x7bwebhook_url\x7d" ::
      fileParams.map (fun p => lbrace :: p ++ [rbrace])),
    ∀ kv ∈ template, containsSub kv.2 param = false

/-- Under the omission condition `validateBodyTemplate` fails. -/
theorem validateBodyTemplate_fails (template : List (Str × Str))
    (fileParams : List Str) (h : omitsRequiredParam template fileParams) :
    (validateBodyTemplate template fileParams).success = false := by
  obtain ⟨param, hmem, hnone⟩ := h
  have hne : (List.filter
      (fun param => !template.any (fun kv => containsSub kv.2 param))
      (txt "\x7bwebhook_url\x7d" ::
        fileParams.map (fun p => lbrace :: p ++ [rbrace]))) ≠ [] := by
    intro hf
    rw [List.filter_eq_nil_iff] at hf
    have h3 := hf param hmem
    cases hany : template.any (fun kv => containsSub kv.2 param) with
    | false => exact h3 (by rw [hany]; rfl)
    | true =>
      rw [List.any_eq_true] at hany
      obtain ⟨kv, hkv, hc⟩ := hany
      rw [hnone kv hkv] at hc
      exact Bool.false_ne_true hc
  have hf : (List.filter
      (fun param => !template.any (fun kv => containsSub kv.2 param))
      (txt "\x7bwebhook_url\x7d" ::
        fileParams.map (fun p => lbrace :: p ++ [rbrace]))).isEmpty = false := by
    cases hh : (List.filter
        (fun param => !template.any (fun kv => containsSub kv.2 param))
        (txt "\x7bwebhook_url\x7d" ::
          fileParams.map (fun p => lbrace :: p ++ [rbrace]))).isEmpty
    · rfl
    · exact absurd (List.isEmpty_iff.mp hh) hne
  simp only [validateBodyTemplate]
  rw [hf]
  simp

/-- The single issue `validateBodyTemplate` reports carries a body-template
message. -/
theorem validateBodyTemplate_msg (template : List (Str × Str))
    (fileParams : List Str) (issue : ValidationIssue)
    (h : issue ∈ ((validateBodyTemplate template fileParams).error.map
      ValError.issues).getD []) :
    isBodyTemplateMsg issue.message = true := by
  simp only [validateBodyTemplate] at h
  split at h
  · simp only [Option.map_some', Option.getD_some, List.mem_singleton] at h
    subst h
    exact isBodyTemplateMsg_of_lead _ _ (by decide)
  · simp at h

end Bui

namespace Bui

/-- A `bPodSchema` parse (without api refinements) only succeeds on objects. -/
theorem bPodCore_obj (j : Json)
    (h : (bPodParseGen apiParseCore j).1 = []) : ∃ f, j = Json.obj f := by
  cases j with
  | obj f => exact ⟨f, rfl⟩
  | null => simp [bPodParseGen] at h
  | bool b => simp [bPodParseGen] at h
  | num q => simp [bPodParseGen] at h
  | str s => simp [bPodParseGen] at h
  | arr l => simp [bPodParseGen] at h

/-- Componentwise consequences of an issue-free base parse: the `api` and
`accepts` fields are present and issue-free. -/
theorem bPodCore_components (f : List (Str × Json))
    (h : (bPodParseGen apiParseCore (Json.obj f)).1 = []) :
    (∃ va, objGet f (txt "api") = some va ∧ (apiParseCore va).1 = []) ∧
    (∃ aa, objGet f (txt "accepts") = some aa ∧
      (zodAcceptsAt [txt "accepts"] aa).1 = []) := by
  simp only [bPodParseGen] at h
  rw [List.append_eq_nil, List.append_eq_nil, List.append_eq_nil,
      List.append_eq_nil, List.append_eq_nil, List.append_eq_nil,
      List.append_eq_nil] at h
  obtain ⟨⟨⟨⟨⟨⟨⟨h1, h2⟩, h3⟩, h4⟩, h5⟩, h6⟩, h7⟩, h8⟩ := h
  constructor
  · cases hv : objGet f (txt "api") with
    | none => rw [hv] at h5; simp at h5
    | some va => exact ⟨va, rfl, by rw [hv] at h5; exact h5⟩
  · cases hv : objGet f (txt "accepts") with
    | none => rw [hv] at h2; simp at h2
    | some aa => exact ⟨aa, rfl, by rw [hv] at h2; exact h2⟩

/-- When the base parse is issue-free, the full `bPodSchema` issue list is
exactly the api refinement issue list. -/
theorem bPodParse_eq_refines (f : List (Str × Json)) (va : Json)
    (ha : objGet f (txt "api") = some va)
    (hcore : (bPodParseGen apiParseCore (Json.obj f)).1 = []) :
    (bPodParse (Json.obj f)).1 = (apiParseAt va).1 := by
  simp only [bPodParseGen, ha] at hcore
  rw [List.append_eq_nil, List.append_eq_nil, List.append_eq_nil,
      List.append_eq_nil, List.append_eq_nil, List.append_eq_nil,
      List.append_eq_nil] at hcore
  obtain ⟨⟨⟨⟨⟨⟨⟨h1, h2⟩, h3⟩, h4⟩, h5⟩, h6⟩, h7⟩, h8⟩ := hcore
  simp only [bPodParse, bPodParseGen, ha, h1, h2, h3, h4, h6, h7, h8,
    List.nil_append, List.append_nil]

/-- With an issue-free base api parse, every remaining issue of the full api
schema is one of the two refinement issues, both about the body template. -/
theorem apiRefine_issues_msg (va : Json) (hc : (apiParseCore va).1 = [])
    (i : ZodIssue) (hi : i ∈ (apiParseAt va).1) :
    isBodyTemplateMsg i.message = true := by
  simp only [apiParseAt, hc, List.isEmpty_nil, Bool.not_true,
    Bool.false_eq_true, if_false] at hi
  rw [List.mem_append] at hi
  rcases hi with hi | hi <;> split at hi
  · simp at hi
  · rw [List.mem_singleton] at hi; subst hi; decide
  · simp at hi
  · rw [List.mem_singleton] at hi; subst hi; decide

/-- An issue-free `accepts` parse means the raw string extensions all pass
`validateFileExtensions`. -/
theorem acceptsOk (aa : Json) (h : (zodAcceptsAt [txt "accepts"] aa).1 = []) :
    ∃ l, aa = Json.arr l ∧
      (validateFileExtensions (l.filterMap
        (fun v => match v with | .str s => some s | _ => none))).success = true := by
  cases aa with
  | arr l =>
    refine ⟨l, rfl, ?_⟩
    simp only [zodAcceptsAt] at h
    rw [List.append_eq_nil] at h
    have hflat := h.2
    rw [List.flatMap_eq_nil_iff] at hflat
    have hall : ∀ s ∈ l.filterMap
        (fun v => match v with | .str s => some s | _ => none), isLowerAlnum s = true := by
      intro s hs
      rw [List.mem_filterMap] at hs
      obtain ⟨v, hv, hsv⟩ := hs
      have hv2 : v ∈ l.enum.map Prod.snd := by rw [List.enum_map_snd]; exact hv
      rw [List.mem_map] at hv2
      obtain ⟨p, hp, hps⟩ := hv2
      have := hflat p hp
      cases v with
      | str s2 =>
        simp only at hsv
        cases hsv
        rw [hps] at this
        simp only at this
        by_cases hla : isLowerAlnum s = true
        · exact hla
        · rw [Bool.not_eq_true] at hla
          rw [hla] at this
          simp at this
      | null => simp at hsv
      | bool b => simp at hsv
      | num q => simp at hsv
      | arr l2 => simp at hsv
      | obj o => simp at hsv
    simp only [validateFileExtensions]
    have hfe : (l.filterMap
        (fun v => match v with | .str s => some s | _ => none)).filter
          (fun ext => !isLowerAlnum ext) = [] := by
      rw [List.filter_eq_nil_iff]
      intro a ha
      rw [hall a ha]
      simp
    rw [hfe]
    simp
  | null => simp [zodAcceptsAt] at h
  | bool b => simp [zodAcceptsAt] at h
  | num q => simp [zodAcceptsAt] at h
  | str s => simp [zodAcceptsAt] at h
  | obj o => simp [zodAcceptsAt] at h

end Bui

namespace Bui

/-- `startsWith` gives a decomposition. -/
theorem jsStartsWith_ex (s p : Str) (h : jsStartsWith s p = true) :
    ∃ r, s = p ++ r := by
  rw [jsStartsWith, List.isPrefixOf_iff_prefix] at h
  obtain ⟨t, ht⟩ := h
  exact ⟨t, ht.symm⟩

/-- `validateBPod` succeeds exactly when the schema parse has no issues. -/
theorem validateBPod_success_iff (j : Json) :
    (validateBPod j).success = true ↔ (bPodParse j).1 = [] := by
  simp only [validateBPod]
  split
  · simp_all [List.isEmpty_iff]
  · simp_all [List.isEmpty_iff]

/-- On failure, the reported issues are the mapped schema issues. -/
theorem validateBPod_error_eq (j : Json)
    (hne : (bPodParse j).1.isEmpty = false) :
    ((validateBPod j).error.map ValError.issues).getD [] =
      (bPodParse j).1.map bPodIssueToValidation := by
  simp only [validateBPod, hne, Bool.false_eq_true, if_false,
    Option.map_some', Option.getD_some]

/-- The issue mapping preserves messages. -/
theorem bPodIssueToValidation_message (zi : ZodIssue) :
    (bPodIssueToValidation zi).message = zi.message := rfl

/-- A failing `validateBodyTemplate` reports exactly one issue. -/
theorem validateBodyTemplate_error_issue (template : List (Str × Str))
    (fileParams : List Str)
    (h : (validateBodyTemplate template fileParams).success = false) :
    ∃ i, ((validateBodyTemplate template fileParams).error.map
      ValError.issues).getD [] = [i] := by
  simp only [validateBodyTemplate] at h ⊢
  split at h
  · split
    · exact ⟨_, rfl⟩
    · simp_all
  · simp at h

/-- Claim C6: a `b-pod` block whose body parses, whose fields all satisfy the
base schema, but whose `bodyTemplate` omits `\x7bwebhook_url\x7d` or the
placeholder of a declared file parameter, always fails validation with a
body-template diagnostic and is not added to the document. -/
theorem claim_C6_body_template_blocks_service
    (incl : List Str) (ctx : ParseContext) (st : PMState) (idx : Nat)
    (block cap body : Str) (json : Json)
    (h0 : jsStartsWith block (txt "b-pod:") = true)
    (h1 : bPodNameCapture block = some cap)
    (h1b : (trimStr cap).isEmpty = false)
    (h2 : st.bPods.any (fun bp => bpStoredName bp = some (trimStr cap)) = false)
    (h3 : bPodBodyCapture block = some body)
    (h4 : jsonParse (lbrace :: body ++ [rbrace]) = some json)
    (h5 : (bPodParseGen apiParseCore (mkBPodObject (trimStr cap) json)).1 = [])
    (h6 : omitsRequiredParam (bpBodyTemplateRaw (mkBPodObject (trimStr cap) json))
            (bpFileParamsRaw (mkBPodObject (trimStr cap) json))) :
    (processBlock incl ctx st idx block).bPods = st.bPods ∧
    (∃ new, (processBlock incl ctx st idx block).errors = st.errors ++ new ∧
      ∃ e ∈ new, isBodyTemplateMsg e.message = true) ∧
    ((validateBPod (mkBPodObject (trimStr cap) json)).success = false ∨
     (validateBodyTemplate (bpBodyTemplateRaw (mkBPodObject (trimStr cap) json))
        (bpFileParamsRaw (mkBPodObject (trimStr cap) json))).success = false) := by
  have hfacts : block.contains ':' = true ∧
      jsStartsWith block (txt "version:") = false ∧
      jsStartsWith block (txt "profile:") = false := by
    obtain ⟨r, hr⟩ := jsStartsWith_ex _ _ h0
    subst hr
    exact ⟨rfl, rfl, rfl⟩
  obtain ⟨hcol, hver, hprof⟩ := hfacts
  have hbt := validateBodyTemplate_fails _ _ h6
  by_cases hsucc : (validateBPod (mkBPodObject (trimStr cap) json)).success = true
  · -- schema passed; the dedicated body-template check rejects the service
    obtain ⟨mf, hmf⟩ := bPodCore_obj _ h5
    rw [hmf] at h5
    obtain ⟨⟨va, hva, hvacore⟩, ⟨aa, haa, haacore⟩⟩ := bPodCore_components _ h5
    obtain ⟨al, hal, hfe⟩ := acceptsOk _ haacore
    have hraw : bpAcceptsRaw (mkBPodObject (trimStr cap) json) =
        al.filterMap (fun v => match v with | .str s => some s | _ => none) := by
      rw [hmf]
      simp only [bpAcceptsRaw, haa, hal]
    have heq : processBlock incl ctx st idx block =
        { st with errors := st.errors ++
            (((validateBodyTemplate (bpBodyTemplateRaw (mkBPodObject (trimStr cap) json))
                (bpFileParamsRaw (mkBPodObject (trimStr cap) json))).error.map
                  ValError.issues).getD []).map (fun issue =>
              createError issue.code issue.message
                (updateParseContext ctx (idx + 1) 1) issue.expected) } := by
      simp only [processBlock, hcol, hver, hprof, h0, h1, h1b, h2, h3, h4,
        hsucc, hraw, hfe, hbt, Bool.not_true, Bool.false_eq_true, if_false,
        Bool.false_and, Bool.true_and, Bool.not_false, if_true,
        Bool.true_eq_false]
    obtain ⟨i, hi⟩ := validateBodyTemplate_error_issue _ _ hbt
    refine ⟨by rw [heq], ⟨_, by rw [heq], ?_⟩, Or.inr hbt⟩
    rw [hi]
    refine ⟨_, List.mem_map_of_mem _ (List.mem_singleton_self i), ?_⟩
    have := validateBodyTemplate_msg
      (bpBodyTemplateRaw (mkBPodObject (trimStr cap) json))
      (bpFileParamsRaw (mkBPodObject (trimStr cap) json)) i
      (by rw [hi]; exact List.mem_singleton_self i)
    simpa [createError] using this
  · -- the schema itself failed: only the api refinements can be at fault
    rw [Bool.not_eq_true] at hsucc
    obtain ⟨mf, hmf⟩ := bPodCore_obj _ h5
    rw [hmf] at h5
    obtain ⟨⟨va, hva, hvacore⟩, _⟩ := bPodCore_components _ h5
    have hrel := bPodParse_eq_refines mf va hva h5
    have hne : (bPodParse (mkBPodObject (trimStr cap) json)).1.isEmpty = false := by
      rw [hmf]
      cases hh : (bPodParse (Json.obj mf)).1.isEmpty
      · rfl
      · exfalso
        have h0' := List.isEmpty_iff.mp hh
        have := (validateBPod_success_iff (Json.obj mf)).mpr h0'
        rw [hmf] at hsucc
        rw [this] at hsucc
        simp at hsucc
    have herr := validateBPod_error_eq _ hne
    have heq : processBlock incl ctx st idx block =
        { st with errors := st.errors ++
            (((validateBPod (mkBPodObject (trimStr cap) json)).error.map
                ValError.issues).getD []).map (fun issue =>
              createError issue.code issue.message
                (updateParseContext ctx (idx + 1) 1)
                (issue.expected.map (fun e => txt "Expected: " ++ e))) } := by
      simp only [processBlock, hcol, hver, hprof, h0, h1, h1b, h2, h3, h4,
        hsucc, Bool.not_true, Bool.false_eq_true, if_false,
        Bool.false_and, Bool.true_and, Bool.not_false, if_true,
        Bool.true_eq_false]
    refine ⟨by rw [heq], ⟨_, by rw [heq], ?_⟩, Or.inl hsucc⟩
    have hissne : (bPodParse (Json.obj mf)).1 ≠ [] := by
      intro hz
      rw [hmf] at hne
      rw [hz] at hne
      simp at hne
    obtain ⟨zi, hzitail⟩ := List.exists_mem_of_ne_nil _ hissne
    rw [hmf] at herr
    rw [hmf, herr, hrel]
    rw [hrel] at hzitail
    refine ⟨_, List.mem_map_of_mem _ (List.mem_map_of_mem _ hzitail), ?_⟩
    have hmsg := apiRefine_issues_msg va hvacore zi hzitail
    simpa [createError, bPodIssueToValidation_message] using hmsg

end Bui

namespace Bui

/-- Witness for C6 at a concrete service block missing its file-parameter
placeholder. -/
theorem claim_C6_witness :
    (processBlock [txt "/p/index.bui"]
        (createParseContext (txt "/p/index.bui") wBlockC6 0) {} 0 wBlockC6).bPods =
      ({} : PMState).bPods ∧
    (∃ new, (processBlock [txt "/p/index.bui"]
        (createParseContext (txt "/p/index.bui") wBlockC6 0) {} 0 wBlockC6).errors =
      ({} : PMState).errors ++ new ∧
      ∃ e ∈ new, isBodyTemplateMsg e.message = true) ∧
    ((validateBPod (mkBPodObject (trimStr (txt "W")) wJsonC6)).success = false ∨
     (validateBodyTemplate (bpBodyTemplateRaw (mkBPodObject (trimStr (txt "W")) wJsonC6))
        (bpFileParamsRaw (mkBPodObject (trimStr (txt "W")) wJsonC6))).success = false) :=
  claim_C6_body_template_blocks_service _ _ _ _ _ (txt "W") wBodyC6 wJsonC6
    rfl rfl rfl rfl rfl rfl rfl
    ⟨txt "\x7bf\x7d", by decide, by decide⟩

end Bui

namespace Bui

/-!
### Claim C3 — a non-"1.0.0" version yields exactly one INVALID_VERSION
-/

/-- Structural facts about a `version:`-classified block. -/
theorem version_decl_facts (b : Str) (h : isVersionDecl b = true) :
    b.contains ':' = true ∧ jsStartsWith b (txt "b-pod:") = false ∧
    jsStartsWith b (txt "profile:") = false := by
  obtain ⟨r, hr⟩ := jsStartsWith_ex _ _ h
  subst hr
  exact ⟨rfl, rfl, rfl⟩

/-- A `profile:` block is not a `version:` block. -/
theorem profile_not_version (b : Str) (h : jsStartsWith b (txt "profile:") = true) :
    isVersionDecl b = false := by
  obtain ⟨r, hr⟩ := jsStartsWith_ex _ _ h
  subst hr
  rfl

/-- A `b-pod:` block is not a `version:` block. -/
theorem bpod_not_version (b : Str) (h : jsStartsWith b (txt "b-pod:") = true) :
    isVersionDecl b = false := by
  obtain ⟨r, hr⟩ := jsStartsWith_ex _ _ h
  subst hr
  rfl

/-- Counting splits over append. -/
theorem countCode_append (a b : List CompilerError) (c : Str) :
    countCode (a ++ b) c = countCode a c + countCode b c := by
  simp [countCode, List.filter_append]

/-- A list with no diagnostic of code `c` counts zero. -/
theorem countCode_eq_zero (l : List CompilerError) (c : Str)
    (h : ∀ e ∈ l, e.code ≠ c) : countCode l c = 0 := by
  simp only [countCode, List.length_eq_zero, List.filter_eq_nil_iff]
  intro e he
  simp [h e he]

/-- A single diagnostic of code `c` counts one. -/
theorem countCode_single (e : CompilerError) (c : Str) (h : e.code = c) :
    countCode [e] c = 1 := by
  simp [countCode, h]

/-- `mapZodErrorToCode` never yields the version-mismatch code E003. -/
theorem mapZod_ne_E003 (s : Str) :
    mapZodErrorToCode s ≠ ErrorCode.INVALID_VERSION := by
  cases hf : zodCodeMap.find? (fun q => q.1 = s) with
  | none =>
    simp only [mapZodErrorToCode, hf, Option.map_none', Option.getD_none]
    decide
  | some p =>
    have hmem := List.mem_of_find?_eq_some hf
    simp only [mapZodErrorToCode, hf, Option.map_some', Option.getD_some]
    fin_cases hmem <;> decide

/-- Profile validation issues never carry code E003. -/
theorem profileIssue_code_ne_E003 (zi : ZodIssue) :
    (profileIssueToValidation zi).code ≠ ErrorCode.INVALID_VERSION := by
  simp only [profileIssueToValidation]
  split
  · decide
  · split
    · decide
    · split
      · decide
      · exact mapZod_ne_E003 _

/-- Service validation issues never carry code E003. -/
theorem bPodIssue_code_ne_E003 (zi : ZodIssue) :
    (bPodIssueToValidation zi).code ≠ ErrorCode.INVALID_VERSION := by
  simp only [bPodIssueToValidation]
  split
  · decide
  · split
    · decide
    · split
      · decide
      · exact mapZod_ne_E003 _

end Bui

namespace Bui

/-- Appending diagnostics of other codes leaves the count unchanged. -/
theorem countCode_append_zero (l new : List CompilerError) (c : Str)
    (h : ∀ e ∈ new, e.code ≠ c) :
    countCode (l ++ new) c = countCode l c := by
  rw [countCode_append, countCode_eq_zero new c h]
  omega

/-- On a successful profile validation, reported issues are warnings. -/
theorem validateProfile_issue_mem (j : Json) (i : ValidationIssue)
    (hc : (profileParseCore j).1.isEmpty = true)
    (hi : i ∈ ((validateProfile j).error.map ValError.issues).getD []) :
    ∃ d, i ∈ profileWarnings d := by
  simp only [validateProfile, hc, if_true] at hi
  split at hi <;> split at hi <;>
    first
    | (simp only [Option.map_some', Option.getD_some] at hi; exact ⟨_, hi⟩)
    | simp at hi

/-- Profile warnings never carry the version code E003. -/
theorem profileWarnings_code (d : ProfileData) (i : ValidationIssue)
    (hi : i ∈ profileWarnings d) : i.code ≠ ErrorCode.INVALID_VERSION := by
  simp only [profileWarnings] at hi
  rw [List.mem_append] at hi
  rcases hi with hi | hi <;> split at hi <;>
    simp only [List.mem_singleton, List.not_mem_nil] at hi
  · subst hi
    show WarningCode.PROFILE_MISSING_LOGO ≠ ErrorCode.INVALID_VERSION
    decide
  · subst hi
    show WarningCode.PROFILE_MISSING_WEBSITE ≠ ErrorCode.INVALID_VERSION
    decide

/-- Service warnings never carry the version code E003. -/
theorem bPodWarnings_code (d : BPodData) (i : ValidationIssue)
    (hi : i ∈ bPodWarnings d) : i.code ≠ ErrorCode.INVALID_VERSION := by
  simp only [bPodWarnings] at hi
  simp only [List.mem_append] at hi
  rcases hi with ((hi | hi) | hi) | hi <;> split at hi <;>
    simp only [List.mem_singleton, List.not_mem_nil] at hi
  · subst hi
    show WarningCode.BPOD_MISSING_DESCRIPTION ≠ ErrorCode.INVALID_VERSION
    decide
  · subst hi
    show WarningCode.BPOD_MISSING_TAGS ≠ ErrorCode.INVALID_VERSION
    decide
  · subst hi
    show WarningCode.API_MISSING_HEADERS ≠ ErrorCode.INVALID_VERSION
    decide
  · subst hi
    show WarningCode.API_MISSING_TIMEOUT ≠ ErrorCode.INVALID_VERSION
    decide

/-- On a successful service validation, reported issues are warnings. -/
theorem validateBPod_issue_mem (j : Json) (i : ValidationIssue)
    (hc : (bPodParse j).1.isEmpty = true)
    (hi : i ∈ ((validateBPod j).error.map ValError.issues).getD []) :
    ∃ d, i ∈ bPodWarnings d := by
  simp only [validateBPod, hc, if_true] at hi
  split at hi <;>
    first
    | (simp only [Option.map_some', Option.getD_some] at hi; exact ⟨_, hi⟩)
    | simp at hi

/-- No issue reported by `validateProfile` (error or warning) carries the
version code E003. -/
theorem validateProfile_issue_ne_E003 (j : Json) (i : ValidationIssue)
    (hi : i ∈ ((validateProfile j).error.map ValError.issues).getD []) :
    i.code ≠ ErrorCode.INVALID_VERSION := by
  by_cases hc : (profileParseCore j).1.isEmpty = true
  · obtain ⟨d, hd⟩ := validateProfile_issue_mem j i hc hi
    exact profileWarnings_code d i hd
  · rw [Bool.not_eq_true] at hc
    simp only [validateProfile, hc, Bool.false_eq_true, if_false,
      Option.map_some', Option.getD_some, List.mem_map] at hi
    obtain ⟨zi, _, hzi⟩ := hi
    subst hzi
    exact profileIssue_code_ne_E003 zi

/-- No issue reported by `validateBPod` (error or warning) carries the
version code E003. -/
theorem validateBPod_issue_ne_E003 (j : Json) (i : ValidationIssue)
    (hi : i ∈ ((validateBPod j).error.map ValError.issues).getD []) :
    i.code ≠ ErrorCode.INVALID_VERSION := by
  by_cases hc : (bPodParse j).1.isEmpty = true
  · obtain ⟨d, hd⟩ := validateBPod_issue_mem j i hc hi
    exact bPodWarnings_code d i hd
  · rw [Bool.not_eq_true] at hc
    simp only [validateBPod, hc, Bool.false_eq_true, if_false,
      Option.map_some', Option.getD_some, List.mem_map] at hi
    obtain ⟨zi, _, hzi⟩ := hi
    subst hzi
    exact bPodIssue_code_ne_E003 zi

/-- Every issue of `validateFileExtensions` carries E203. -/
theorem validateFileExtensions_issue_code (l : List Str) (i : ValidationIssue)
    (hi : i ∈ ((validateFileExtensions l).error.map ValError.issues).getD []) :
    i.code = ErrorCode.BPOD_ACCEPTS_INVALID_FORMAT := by
  simp only [validateFileExtensions] at hi
  split at hi
  · simp only [Option.map_some', Option.getD_some, List.mem_singleton] at hi
    subst hi
    rfl
  · simp at hi

/-- Every issue of `validateBodyTemplate` carries E208. -/
theorem validateBodyTemplate_issue_code (t : List (Str × Str)) (ps : List Str)
    (i : ValidationIssue)
    (hi : i ∈ ((validateBodyTemplate t ps).error.map ValError.issues).getD []) :
    i.code = ErrorCode.BPOD_API_BODY_TEMPLATE_MISSING_WEBHOOK := by
  simp only [validateBodyTemplate] at hi
  split at hi
  · simp only [Option.map_some', Option.getD_some, List.mem_singleton] at hi
    subst hi
    rfl
  · simp at hi

/-- `processBlock` never changes the scanning position fields. -/
theorem processBlock_preserve (incl : List Str) (ctx : ParseContext)
    (st : PMState) (i : Nat) (b : Str) :
    (processBlock incl ctx st i b).currentFile = st.currentFile ∧
    (processBlock incl ctx st i b).lineOffset = st.lineOffset := by
  simp only [processBlock]
  repeat' split
  all_goals simp

/-- `processBlock` keeps the version unless it meets a well-placed
`version:` block carrying the literal `"1.0.0"`. -/
theorem processBlock_version_pres (incl : List Str) (ctx : ParseContext)
    (st : PMState) (i : Nat) (b : Str)
    (h : ¬(isVersionDecl b = true ∧ st.currentFile = incl.headD [] ∧
      versionValueOf b = txt "1.0.0")) :
    (processBlock incl ctx st i b).version = st.version := by
  simp only [processBlock]
  repeat' split
  all_goals try rfl
  next hcond hval =>
    exfalso
    apply h
    rw [Bool.and_eq_true] at hcond
    refine ⟨hcond.1, of_decide_eq_true hcond.2, ?_⟩
    rw [Decidable.not_not] at hval
    exact hval

end Bui

namespace Bui

/-- A misplaced-or-bad `version:` block in scope of the entry file appends
exactly the INVALID_VERSION diagnostic and continues (collect-all-errors):
the state is unchanged except for that one error. -/
theorem processBlock_bad_version_eq (incl : List Str) (ctx : ParseContext)
    (st : PMState) (i : Nat) (b : Str)
    (h1 : isVersionDecl b = true)
    (h2 : st.currentFile = incl.headD [])
    (h3 : versionValueOf b ≠ txt "1.0.0") :
    processBlock incl ctx st i b =
      { st with errors := st.errors ++
          [createError ErrorCode.INVALID_VERSION
            (txt "Invalid version: " ++ versionValueOf b ++ txt ", expected \"1.0.0\"")
            (updateParseContext ctx (i + 1) 1)
            (some (txt "Use version: \"1.0.0\""))] } := by
  have h1' : jsStartsWith b (txt "version:") = true := h1
  obtain ⟨hcol, _, _⟩ := version_decl_facts b h1
  rw [versionValueOf] at h3
  simp only [processBlock, hcol, h1', h2, Bool.not_true, Bool.false_eq_true,
    if_false, decide_True, Bool.and_true, Bool.true_and, if_true, h3,
    versionValueOf]
  rw [if_pos h3]

end Bui

namespace Bui

/-- The code of a created diagnostic is the code it was created with. -/
theorem createError_code (c m : Str) (ctx : ParseContext) (sugg : Option Str)
    (sev : Str) : (createError c m ctx sugg sev).code = c := rfl

set_option maxHeartbeats 3200000 in
/-- Per-block accounting of INVALID_VERSION diagnostics: a block contributes
exactly one E003 precisely when it is a `version:` block scoped to the entry
file carrying a value other than `"1.0.0"`. -/
theorem processBlock_E003 (incl : List Str) (ctx : ParseContext)
    (st : PMState) (i : Nat) (b : Str) :
    countCode (processBlock incl ctx st i b).errors ErrorCode.INVALID_VERSION =
      countCode st.errors ErrorCode.INVALID_VERSION +
      (if (isVersionDecl b && decide (st.currentFile = incl.headD []) &&
           decide (versionValueOf b ≠ txt "1.0.0")) = true then 1 else 0) := by
  by_cases hver : (isVersionDecl b && decide (st.currentFile = incl.headD []) &&
      decide (versionValueOf b ≠ txt "1.0.0")) = true
  · rw [Bool.and_eq_true, Bool.and_eq_true] at hver
    obtain ⟨⟨hv1, hv2⟩, hv3⟩ := hver
    rw [processBlock_bad_version_eq incl ctx st i b hv1 (of_decide_eq_true hv2)
        (of_decide_eq_true hv3)]
    have hone : countCode [createError ErrorCode.INVALID_VERSION
        (txt "Invalid version: " ++ versionValueOf b ++ txt ", expected \"1.0.0\"")
        (updateParseContext ctx (i + 1) 1)
        (some (txt "Use version: \"1.0.0\""))] ErrorCode.INVALID_VERSION = 1 :=
      countCode_single _ _ rfl
    show countCode (st.errors ++ _) _ = _
    rw [countCode_append, hone, if_pos]
    rw [Bool.and_eq_true, Bool.and_eq_true]
    exact ⟨⟨hv1, hv2⟩, hv3⟩
  · rw [if_neg hver, Nat.add_zero]
    simp only [processBlock]
    repeat' split
    all_goals try simp
    all_goals rw [countCode_append_zero]
    all_goals intro e he
    all_goals try (
      rw [List.mem_singleton] at he
      subst he
      rw [createError_code]
      decide)
    all_goals try (
      rw [List.mem_map] at he
      obtain ⟨issue, hiss, rfl⟩ := he
      rw [createError_code]
      first
      | exact validateProfile_issue_ne_E003 _ _ hiss
      | exact validateBPod_issue_ne_E003 _ _ hiss
      | (rw [validateFileExtensions_issue_code _ _ hiss]; decide)
      | (rw [validateBodyTemplate_issue_code _ _ _ hiss]; decide))
    all_goals (
      exfalso
      apply hver
      rename_i hguard hval
      rw [Bool.and_eq_true]
      exact ⟨hguard, decide_eq_true hval⟩)

end Bui

namespace Bui

/-- E003 accounting for a whole block list. -/
theorem foldl_E003 (incl : List Str) (ctx : ParseContext)
    (ps : List (Nat × Str)) : ∀ st : PMState,
    countCode ((ps.foldl (fun s p => processBlock incl ctx s p.1 p.2) st).errors)
        ErrorCode.INVALID_VERSION =
      countCode st.errors ErrorCode.INVALID_VERSION +
      ps.countP (fun p => isVersionDecl p.2 &&
        decide (st.currentFile = incl.headD []) &&
        decide (versionValueOf p.2 ≠ txt "1.0.0")) := by
  induction ps with
  | nil => intro st; simp
  | cons hd tl ih =>
    intro st
    rw [List.foldl_cons, ih, processBlock_E003]
    simp only [(processBlock_preserve incl ctx st hd.1 hd.2).1]
    rw [List.countP_cons]
    omega

/-- The version survives a block list containing no well-placed good
`version:` block. -/
theorem foldl_version (incl : List Str) (ctx : ParseContext)
    (ps : List (Nat × Str)) : ∀ st : PMState,
    (∀ p ∈ ps, ¬(isVersionDecl p.2 = true ∧ st.currentFile = incl.headD [] ∧
      versionValueOf p.2 = txt "1.0.0")) →
    ((ps.foldl (fun s p => processBlock incl ctx s p.1 p.2) st).version) = st.version := by
  induction ps with
  | nil => intro st _; rfl
  | cons hd tl ih =>
    intro st h
    rw [List.foldl_cons]
    rw [ih _ ?_, processBlock_version_pres]
    · exact h hd (List.mem_cons_self hd tl)
    · intro p hp
      rw [(processBlock_preserve incl ctx st hd.1 hd.2).1]
      exact h p (List.mem_cons_of_mem hd hp)

end Bui

namespace Bui

/-- In a single-file project the provenance check never fires: a non-blank
section is processed as its block list. -/
theorem processSection_single (cwd entry content : Str) (st : PMState)
    (sec : Str) (hne : trimStr sec ≠ []) :
    processSection cwd [entry] content st sec =
      (splitBlocks sec).enum.foldl
        (fun s p => processBlock [entry]
          (createParseContext st.currentFile sec st.lineOffset) s p.1 p.2) st := by
  have hempty : (trimStr sec).isEmpty = false := by
    cases hh : (trimStr sec).isEmpty
    · rfl
    · exact absurd (List.isEmpty_iff.mp hh) hne
  simp only [processSection, hempty, Bool.false_eq_true, if_false,
    List.length_cons, List.length_nil, Nat.zero_add, gt_iff_lt,
    Nat.lt_irrefl, decide_False, Bool.and_false, Bool.false_and]

/-- The errors of a compile result are the errors of the final scan state
(with or without metadata). -/
theorem parseMerged_errors (cwd content : Str) (includedFiles : List Str)
    (options : CompileOptions) (startTime : Nat) (stats : MergeStats) :
    (parseMergedContentWithSources cwd content includedFiles options startTime
      stats).errors =
      ((splitFileSections content).foldl
        (processSection cwd includedFiles content)
        { currentFile := includedFiles.headD [], lineOffset := 0 }).errors := by
  simp only [parseMergedContentWithSources]
  split <;> rfl

/-- The version of a compile result is the version of the final scan state. -/
theorem parseMerged_version (cwd content : Str) (includedFiles : List Str)
    (options : CompileOptions) (startTime : Nat) (stats : MergeStats) :
    (parseMergedContentWithSources cwd content includedFiles options startTime
      stats).ast.version =
      ((splitFileSections content).foldl
        (processSection cwd includedFiles content)
        { currentFile := includedFiles.headD [], lineOffset := 0 }).version := by
  simp only [parseMergedContentWithSources]
  split <;> rfl

end Bui

namespace Bui

/-- `countP` of a payload predicate over an enumerated list. -/
theorem enum_countP_snd (l : List Str) (q : Str → Bool) :
    l.enum.countP (fun p => q p.2) = l.countP q := by
  conv_rhs => rw [← List.enum_map_snd l]
  rw [List.countP_map]
  rfl

/-- C3: if the entry file (itself the single section of the merged buffer)
declares exactly one `version:` block and its literal differs from
`"1.0.0"`, then the compile result carries exactly one INVALID_VERSION
diagnostic, the returned document still exists with version `"1.0.0"`
(the function returns, it does not throw), and any such bad version block
merely appends its diagnostic and continues with the same state
(collect-all-errors, not fail-fast). -/
theorem claim_C3_invalid_version_exactly_once
    (cwd content entry : Str) (options : CompileOptions) (startTime : Nat)
    (stats : MergeStats) (vb : Str)
    (hsec : splitFileSections content = [content])
    (hne : trimStr content ≠ [])
    (hvb : (splitBlocks content).filter isVersionDecl = [vb])
    (hbad : versionValueOf vb ≠ txt "1.0.0") :
    countCode (parseMergedContentWithSources cwd content [entry] options
        startTime stats).errors ErrorCode.INVALID_VERSION = 1 ∧
    (parseMergedContentWithSources cwd content [entry] options
        startTime stats).ast.version = txt "1.0.0" ∧
    (∀ (incl : List Str) (ctx : ParseContext) (st : PMState) (i : Nat) (b : Str),
      isVersionDecl b = true → st.currentFile = incl.headD [] →
      versionValueOf b ≠ txt "1.0.0" →
      processBlock incl ctx st i b =
        { st with errors := st.errors ++
            [createError ErrorCode.INVALID_VERSION
              (txt "Invalid version: " ++ versionValueOf b ++ txt ", expected \"1.0.0\"")
              (updateParseContext ctx (i + 1) 1)
              (some (txt "Use version: \"1.0.0\""))] }) := by
  refine ⟨?_, ?_, fun incl ctx st i b h1 h2 h3 =>
    processBlock_bad_version_eq incl ctx st i b h1 h2 h3⟩
  · rw [parseMerged_errors, hsec, List.foldl_cons, List.foldl_nil,
      processSection_single cwd entry content _ content hne, foldl_E003]
    have h0 : countCode (PMState.errors
        { currentFile := [entry].headD [], lineOffset := 0 })
        ErrorCode.INVALID_VERSION = 0 := rfl
    rw [h0, Nat.zero_add]
    have hfun : (fun p : Nat × Str => isVersionDecl p.2 &&
        decide (PMState.currentFile
          { currentFile := [entry].headD [], lineOffset := 0 } =
          [entry].headD []) &&
        decide (versionValueOf p.2 ≠ txt "1.0.0")) =
        (fun p : Nat × Str =>
          decide (versionValueOf p.2 ≠ txt "1.0.0") && isVersionDecl p.2) := by
      funext p
      rw [decide_eq_true rfl, Bool.and_true, Bool.and_comm]
    rw [hfun, enum_countP_snd (splitBlocks content)
        (fun b => decide (versionValueOf b ≠ txt "1.0.0") && isVersionDecl b),
      List.countP_eq_length_filter,
      ← List.filter_filter, hvb]
    have hone : List.filter
        (fun b => decide (versionValueOf b ≠ txt "1.0.0")) [vb] = [vb] := by
      simp only [List.filter_cons, List.filter_nil, decide_eq_true hbad, if_true]
    rw [hone]
    rfl
  · rw [parseMerged_version, hsec, List.foldl_cons, List.foldl_nil,
      processSection_single cwd entry content _ content hne]
    have hgood : ∀ p ∈ (splitBlocks content).enum,
        ¬(isVersionDecl p.2 = true ∧
          PMState.currentFile
            { currentFile := [entry].headD [], lineOffset := 0 } =
            [entry].headD [] ∧
          versionValueOf p.2 = txt "1.0.0") := by
      rintro p hp ⟨h1, _, h3⟩
      have hmem : p.2 ∈ splitBlocks content := by
        have hm := List.mem_map_of_mem Prod.snd hp
        rwa [List.enum_map_snd] at hm
      have hfil : p.2 ∈ (splitBlocks content).filter isVersionDecl :=
        List.mem_filter.mpr ⟨hmem, h1⟩
      rw [hvb, List.mem_singleton] at hfil
      rw [hfil] at h3
      exact hbad h3
    rw [foldl_version [entry] _ _ _ hgood]

end Bui

namespace Bui

/-- Witness for C3 at the concrete entry content `version: "2.0.0"`. -/
theorem claim_C3_witness :
    countCode (parseMergedContentWithSources (txt "/")
        (txt "version: \"2.0.0\"") [txt "/index.bui"] {} 0 ⟨0, 0, []⟩).errors
      ErrorCode.INVALID_VERSION = 1 ∧
    (parseMergedContentWithSources (txt "/") (txt "version: \"2.0.0\"")
        [txt "/index.bui"] {} 0 ⟨0, 0, []⟩).ast.version = txt "1.0.0" ∧
    (∀ (incl : List Str) (ctx : ParseContext) (st : PMState) (i : Nat) (b : Str),
      isVersionDecl b = true → st.currentFile = incl.headD [] →
      versionValueOf b ≠ txt "1.0.0" →
      processBlock incl ctx st i b =
        { st with errors := st.errors ++
            [createError ErrorCode.INVALID_VERSION
              (txt "Invalid version: " ++ versionValueOf b ++ txt ", expected \"1.0.0\"")
              (updateParseContext ctx (i + 1) 1)
              (some (txt "Use version: \"1.0.0\""))] }) :=
  claim_C3_invalid_version_exactly_once (txt "/") (txt "version: \"2.0.0\"")
    (txt "/index.bui") {} 0 ⟨0, 0, []⟩ (txt "version: \"2.0.0\"")
    (by rfl) (by decide) (by rfl) (by decide)

end Bui

namespace Bui

set_option maxHeartbeats 1600000 in
/-- C9: when the entry content (the single section of the merged buffer)
declares no `version:` block at all, no INVALID_VERSION diagnostic is
produced and the returned document's version silently defaults to
`"1.0.0"`; moreover on the concrete version-less entry `c9content`
compilation fully succeeds (no errors, one service, default version). -/
theorem claim_C9_missing_version_defaults
    (cwd content entry : Str) (options : CompileOptions) (startTime : Nat)
    (stats : MergeStats)
    (hsec : splitFileSections content = [content])
    (hne : trimStr content ≠ [])
    (hnov : (splitBlocks content).filter isVersionDecl = []) :
    countCode (parseMergedContentWithSources cwd content [entry] options
        startTime stats).errors ErrorCode.INVALID_VERSION = 0 ∧
    (parseMergedContentWithSources cwd content [entry] options
        startTime stats).ast.version = txt "1.0.0" ∧
    ((parseMergedContentWithSources (txt "/") c9content [txt "/index.bui"]
        {} 0 ⟨0, 0, []⟩).success = true ∧
      (parseMergedContentWithSources (txt "/") c9content [txt "/index.bui"]
        {} 0 ⟨0, 0, []⟩).errors = [] ∧
      (parseMergedContentWithSources (txt "/") c9content [txt "/index.bui"]
        {} 0 ⟨0, 0, []⟩).ast.version = txt "1.0.0" ∧
      (parseMergedContentWithSources (txt "/") c9content [txt "/index.bui"]
        {} 0 ⟨0, 0, []⟩).ast.bPods.length = 1) := by
  have hnover : ∀ b ∈ splitBlocks content, ¬isVersionDecl b = true := by
    intro b hb
    exact List.filter_eq_nil_iff.mp hnov b hb
  refine ⟨?_, ?_, by rfl, by rfl, by rfl, by rfl⟩
  · rw [parseMerged_errors, hsec, List.foldl_cons, List.foldl_nil,
      processSection_single cwd entry content _ content hne, foldl_E003]
    have h0 : countCode (PMState.errors
        { currentFile := [entry].headD [], lineOffset := 0 })
        ErrorCode.INVALID_VERSION = 0 := rfl
    rw [h0, Nat.zero_add, List.countP_eq_zero]
    intro p hp hpred
    have hmem : p.2 ∈ splitBlocks content := by
      have hm := List.mem_map_of_mem Prod.snd hp
      rwa [List.enum_map_snd] at hm
    rw [Bool.and_eq_true, Bool.and_eq_true] at hpred
    exact hnover p.2 hmem hpred.1.1
  · rw [parseMerged_version, hsec, List.foldl_cons, List.foldl_nil,
      processSection_single cwd entry content _ content hne]
    have hgood : ∀ p ∈ (splitBlocks content).enum,
        ¬(isVersionDecl p.2 = true ∧
          PMState.currentFile
            { currentFile := [entry].headD [], lineOffset := 0 } =
            [entry].headD [] ∧
          versionValueOf p.2 = txt "1.0.0") := by
      rintro p hp ⟨h1, _, _⟩
      have hmem : p.2 ∈ splitBlocks content := by
        have hm := List.mem_map_of_mem Prod.snd hp
        rwa [List.enum_map_snd] at hm
      exact hnover p.2 hmem h1
    rw [foldl_version [entry] _ _ _ hgood]

end Bui

namespace Bui

set_option maxHeartbeats 1600000 in
/-- Witness for C9 at the concrete version-less entry `c9content`. -/
theorem claim_C9_witness :
    countCode (parseMergedContentWithSources (txt "/") c9content
        [txt "/index.bui"] {} 0 ⟨0, 0, []⟩).errors
      ErrorCode.INVALID_VERSION = 0 ∧
    (parseMergedContentWithSources (txt "/") c9content [txt "/index.bui"]
        {} 0 ⟨0, 0, []⟩).ast.version = txt "1.0.0" ∧
    ((parseMergedContentWithSources (txt "/") c9content [txt "/index.bui"]
        {} 0 ⟨0, 0, []⟩).success = true ∧
      (parseMergedContentWithSources (txt "/") c9content [txt "/index.bui"]
        {} 0 ⟨0, 0, []⟩).errors = [] ∧
      (parseMergedContentWithSources (txt "/") c9content [txt "/index.bui"]
        {} 0 ⟨0, 0, []⟩).ast.version = txt "1.0.0" ∧
      (parseMergedContentWithSources (txt "/") c9content [txt "/index.bui"]
        {} 0 ⟨0, 0, []⟩).ast.bPods.length = 1) :=
  claim_C9_missing_version_defaults (txt "/") c9content (txt "/index.bui")
    {} 0 ⟨0, 0, []⟩ (by rfl) (by decide) (by rfl)

end Bui

namespace Bui

set_option maxHeartbeats 1600000 in
/-- C4 (amended): when the first occurrence of a service name has been
added to the document, a later block carrying the same captured name is
rejected with exactly one DUPLICATE_BPOD_NAME diagnostic and the document
is left unchanged; on the concrete input `c4good` (a valid service `W`
followed by a duplicate) compilation yields exactly one such error and the
document keeps only the first occurrence.  The source checks duplicates
against the already *added* services only, so the unamended claim fails
when the first occurrence is invalid (see the counterexample). -/
theorem claim_C4_duplicate_first_valid
    (incl : List Str) (ctx : ParseContext) (st : PMState) (i : Nat)
    (b cap n : Str)
    (hb : jsStartsWith b (txt "b-pod:") = true)
    (hcap : bPodNameCapture b = some cap)
    (hn : trimStr cap = n)
    (hnne : n ≠ [])
    (hdup : st.bPods.any (fun bp => bpStoredName bp = some n) = true) :
    processBlock incl ctx st i b =
      { st with errors := st.errors ++
          [createError ErrorCode.DUPLICATE_BPOD_NAME
            (txt "Duplicate b-pod name: " ++ n)
            (updateParseContext ctx (i + 1) 1)
            (some (txt "Ensure each BPod has a unique name"))] } ∧
    (countCode (parseMergedContentWithSources (txt "/") c4good
        [txt "/index.bui"] {} 0 ⟨0, 0, []⟩).errors
      ErrorCode.DUPLICATE_BPOD_NAME = 1 ∧
     (parseMergedContentWithSources (txt "/") c4good [txt "/index.bui"]
        {} 0 ⟨0, 0, []⟩).ast.bPods.length = 1 ∧
     bpApiField ((parseMergedContentWithSources (txt "/") c4good
        [txt "/index.bui"] {} 0 ⟨0, 0, []⟩).ast.bPods.headD Json.null)
       (txt "url") = some (Json.str (txt "https://x.co/a")) ∧
     (parseMergedContentWithSources (txt "/") c4good [txt "/index.bui"]
        {} 0 ⟨0, 0, []⟩).success = false) := by
  refine ⟨?_, by rfl, by rfl, by rfl, by rfl⟩
  obtain ⟨r, rfl⟩ := jsStartsWith_ex b (txt "b-pod:") hb
  have hcolon : (txt "b-pod:" ++ r).contains ':' = true := rfl
  have hnotver : jsStartsWith (txt "b-pod:" ++ r) (txt "version:") = false := rfl
  have hnotprof : jsStartsWith (txt "b-pod:" ++ r) (txt "profile:") = false := rfl
  have hnise : n.isEmpty = false := by
    cases h : n.isEmpty
    · rfl
    · exact absurd (List.isEmpty_iff.mp h) hnne
  simp only [processBlock, hcolon, hnotver, hnotprof, hb, hcap, hn, hnise,
    Bool.not_true, Bool.false_eq_true, if_false, Bool.false_and, if_true,
    Bool.true_and, hdup]

end Bui

namespace Bui

set_option maxHeartbeats 1600000 in
/-- Witness for the amended C4: the duplicate `W` of `b2dup` against a
document already holding a service named `W`. -/
theorem claim_C4_witness :
    processBlock [txt "/index.bui"] (createParseContext (txt "/index.bui") c4good 0)
      { bPods := [Json.obj [(txt "name", Json.str (txt "W"))]] } 1 b2dup =
      { ({ bPods := [Json.obj [(txt "name", Json.str (txt "W"))]] } : PMState) with
        errors := ({ bPods := [Json.obj [(txt "name", Json.str (txt "W"))]] } :
            PMState).errors ++
          [createError ErrorCode.DUPLICATE_BPOD_NAME
            (txt "Duplicate b-pod name: " ++ txt "W")
            (updateParseContext
              (createParseContext (txt "/index.bui") c4good 0) (1 + 1) 1)
            (some (txt "Ensure each BPod has a unique name"))] } ∧
    (countCode (parseMergedContentWithSources (txt "/") c4good
        [txt "/index.bui"] {} 0 ⟨0, 0, []⟩).errors
      ErrorCode.DUPLICATE_BPOD_NAME = 1 ∧
     (parseMergedContentWithSources (txt "/") c4good [txt "/index.bui"]
        {} 0 ⟨0, 0, []⟩).ast.bPods.length = 1 ∧
     bpApiField ((parseMergedContentWithSources (txt "/") c4good
        [txt "/index.bui"] {} 0 ⟨0, 0, []⟩).ast.bPods.headD Json.null)
       (txt "url") = some (Json.str (txt "https://x.co/a")) ∧
     (parseMergedContentWithSources (txt "/") c4good [txt "/index.bui"]
        {} 0 ⟨0, 0, []⟩).success = false) :=
  claim_C4_duplicate_first_valid [txt "/index.bui"]
    (createParseContext (txt "/index.bui") c4good 0)
    { bPods := [Json.obj [(txt "name", Json.str (txt "W"))]] } 1 b2dup
    (txt "W") (txt "W") (by rfl) (by rfl) (by rfl) (by decide) (by rfl)

set_option maxHeartbeats 1600000 in
/-- Counterexample to the unamended C4: `c4bad` holds two service blocks
both named `W`, yet compilation produces zero DUPLICATE_BPOD_NAME errors
and the document holds the SECOND occurrence (the `/b` URL): the duplicate
check runs against added services only, and an invalid first occurrence is
never added. -/
theorem claim_C4_counterexample :
    (splitBlocks c4bad).map (fun b => (bPodNameCapture b).map trimStr) =
      [some (txt "W"), some (txt "W")] ∧
    countCode (parseMergedContentWithSources (txt "/") c4bad
        [txt "/index.bui"] {} 0 ⟨0, 0, []⟩).errors
      ErrorCode.DUPLICATE_BPOD_NAME = 0 ∧
    (parseMergedContentWithSources (txt "/") c4bad [txt "/index.bui"]
        {} 0 ⟨0, 0, []⟩).ast.bPods.length = 1 ∧
    bpApiField ((parseMergedContentWithSources (txt "/") c4bad
        [txt "/index.bui"] {} 0 ⟨0, 0, []⟩).ast.bPods.headD Json.null)
      (txt "url") = some (Json.str (txt "https://x.co/b")) :=
  ⟨by rfl, by rfl, by rfl, by rfl⟩

end Bui

namespace Bui

set_option maxHeartbeats 1600000 in
/-- C5: listing the same file path twice in `files:` is idempotent and
non-fatal: the merge of `[p, p]` is the merge of `[p]` except for exactly
one appended circular-dependency warning; the included list holds the file
once, no error is recorded; and on the concrete project `env5` (entry
listing `b.bui` twice) compilation succeeds with the file's single service
appearing exactly once in the document. -/
theorem claim_C5_reinclusion_idempotent
    (env : Env) (entryPath p r entryAbs : Str) (options : CompileOptions)
    (hEA : pathResolve env.cwd [entryPath] = entryAbs)
    (hex : existsSync env entryAbs = true)
    (hres : pathResolve env.cwd [pathDirname entryAbs, p] = r)
    (hrne : r ≠ entryAbs)
    (hrex : existsSync env r = true)
    (hse : statSize env entryAbs ≤ jsOrDefault options.maxFileSize (1024 * 1024))
    (hsr : statSize env r ≤ jsOrDefault options.maxFileSize (1024 * 1024))
    (hmf : 2 ≤ jsOrDefault options.maxFiles 100) :
    mergeBuiFiles env entryPath [p, p] options =
      { mergeBuiFiles env entryPath [p] options with
        warnings := (mergeBuiFiles env entryPath [p] options).warnings ++
          [circularWarning p r] } ∧
    (mergeBuiFiles env entryPath [p, p] options).includedFiles = [entryAbs, r] ∧
    (mergeBuiFiles env entryPath [p, p] options).errors = [] ∧
    ((parseBUI env5 (txt "index.bui") {}).success = true ∧
     (parseBUI env5 (txt "index.bui") {}).ast.bPods.map bpStoredName =
       [some (txt "B")] ∧
     (mergeBuiFiles env5 (txt "index.bui") [txt "b.bui", txt "b.bui"]
        {}).warnings =
       [circularWarning (txt "b.bui") (txt "/proj/b.bui")]) := by
  have hnlt1 : ¬(jsOrDefault options.maxFiles 100 < 1) := by omega
  have hnlt2 : ¬(jsOrDefault options.maxFiles 100 < 2) := by omega
  have hnse : ¬(jsOrDefault options.maxFileSize (1024 * 1024) <
      statSize env entryAbs) := Nat.not_lt.mpr hse
  have hnsr : ¬(jsOrDefault options.maxFileSize (1024 * 1024) <
      statSize env r) := Nat.not_lt.mpr hsr
  have hcon1 : List.contains [entryAbs] r = false := by
    simp [hrne]
  have hcon2 : List.contains ([entryAbs] ++ [r]) r = true := by
    simp
  simp only [mergeBuiFiles, hEA, hex, Bool.not_true, Bool.false_eq_true,
    if_false, List.length_cons, List.length_nil, hnlt1, hnlt2, hnse, hnsr,
    List.foldl_cons, List.foldl_nil, mergeStep, hres, hcon1, hrex, hcon2,
    Bool.not_false, if_true, List.append_nil]
  exact ⟨trivial, rfl, trivial, by rfl, by rfl, by rfl⟩

end Bui

namespace Bui

set_option maxHeartbeats 1600000 in
/-- Witness for C5 at the concrete project `env5`. -/
theorem claim_C5_witness :
    mergeBuiFiles env5 (txt "index.bui") [txt "b.bui", txt "b.bui"] {} =
      { mergeBuiFiles env5 (txt "index.bui") [txt "b.bui"] {} with
        warnings := (mergeBuiFiles env5 (txt "index.bui") [txt "b.bui"]
            {}).warnings ++
          [circularWarning (txt "b.bui") (txt "/proj/b.bui")] } ∧
    (mergeBuiFiles env5 (txt "index.bui") [txt "b.bui", txt "b.bui"]
        {}).includedFiles = [txt "/proj/index.bui", txt "/proj/b.bui"] ∧
    (mergeBuiFiles env5 (txt "index.bui") [txt "b.bui", txt "b.bui"]
        {}).errors = [] ∧
    ((parseBUI env5 (txt "index.bui") {}).success = true ∧
     (parseBUI env5 (txt "index.bui") {}).ast.bPods.map bpStoredName =
       [some (txt "B")] ∧
     (mergeBuiFiles env5 (txt "index.bui") [txt "b.bui", txt "b.bui"]
        {}).warnings =
       [circularWarning (txt "b.bui") (txt "/proj/b.bui")]) :=
  claim_C5_reinclusion_idempotent env5 (txt "index.bui") (txt "b.bui")
    (txt "/proj/b.bui") (txt "/proj/index.bui") {}
    (by rfl) (by rfl) (by rfl) (by decide) (by rfl) (by decide) (by decide)
    (by decide)

end Bui

namespace Bui

set_option maxHeartbeats 1600000 in
/-- C1 (code bug): `validateFilePath` checks path containment by a raw
string prefix, so `../based/evil.bui` — which resolves OUTSIDE the entry
directory `/root/proj/base`, into its string-prefix sibling
`/root/proj/based` — is accepted; on the concrete project `env1` the whole
compilation succeeds with zero INVALID_FILE_PATH errors, the escaped file
is merged into `includedFiles`, and its service enters the document,
refuting the claim's "always yields a path-related error and is excluded
from includedFiles" (invariant I4 of the spec). -/
theorem claim_C1_path_traversal_accepted :
    (validateFilePath (txt "/root/proj/base") (txt "../based/evil.bui")
      (pathDirname (txt "index.bui"))).valid = true ∧
    insideEntrySubtree (txt "/root/proj/base") (pathDirname (txt "index.bui"))
      (txt "../based/evil.bui") = false ∧
    (parseBUI env1 (txt "index.bui") {}).success = true ∧
    countCode (parseBUI env1 (txt "index.bui") {}).errors
      ErrorCode.INVALID_FILE_PATH = 0 ∧
    (mergeBuiFiles env1 (txt "index.bui") [txt "../based/evil.bui"]
        {}).includedFiles =
      [txt "/root/proj/base/index.bui", txt "/root/proj/based/evil.bui"] ∧
    (parseBUI env1 (txt "index.bui") {}).ast.bPods.map bpStoredName =
      [some (txt "E")] :=
  ⟨by rfl, by rfl, by rfl, by rfl, by rfl, by rfl⟩

end Bui

namespace Bui

set_option maxHeartbeats 1600000 in
/-- C2 (code bug): the shipped merger emits NO `---FILE:` provenance
markers.  On the two-file project `env5` the non-entry file `b.bui`
contributes its service block to the merged buffer, yet the buffer contains
no marker, the block parser sees a single section, and the service `B` is
attributed to the ENTRY file `/proj/index.bui` instead of `/proj/b.bui`,
refuting "one provenance marker line per originating non-entry file" and
the correct-attribution consequence. -/
theorem claim_C2_no_provenance_markers :
    (mergeBuiFiles env5 (txt "index.bui") [txt "b.bui"] {}).includedFiles =
      [txt "/proj/index.bui", txt "/proj/b.bui"] ∧
    containsSub (mergeBuiFiles env5 (txt "index.bui") [txt "b.bui"]
        {}).mergedContent bfile5 = true ∧
    containsSub (mergeBuiFiles env5 (txt "index.bui") [txt "b.bui"]
        {}).mergedContent (txt "---FILE:") = false ∧
    splitFileSections (mergeBuiFiles env5 (txt "index.bui") [txt "b.bui"]
        {}).mergedContent =
      [(mergeBuiFiles env5 (txt "index.bui") [txt "b.bui"] {}).mergedContent] ∧
    (parseBUI env5 (txt "index.bui") { withMetadata := true }).metadata.map
      Metadata.bPodFileMap = some [(txt "B", txt "/proj/index.bui")] :=
  ⟨by rfl, by rfl, by rfl, by rfl, by rfl⟩

end Bui

namespace Bui

/-- C10 (amended): in file-system mode (no direct-content option) an entry
named `index.bui` whose `files:` block fails to parse (empty array,
non-array, or non-string element) makes the whole compilation fail with a
SINGLE error and an empty document — but that error is UNKNOWN_ERROR
(E499), not INVALID_FILES_BLOCK: the handler that would report E008 builds
its parse context from the undefined direct-content variable, throwing a
TypeError that the outer catch converts. -/
theorem claim_C10_files_block_failure
    (env : Env) (entryPath : Str) (options : CompileOptions) (fb msg : Str)
    (hex : existsSync env entryPath = true)
    (hname : pathBasename entryPath = txt "index.bui")
    (hfind : (splitBlocks (readFileSync env entryPath)).find?
        (fun b => jsStartsWith (trimStr b) (txt "files:")) = some fb)
    (herr : parseFilesBlock fb = .error msg)
    (hnc : options.content = none) :
    parseBUI env entryPath options =
      { ast := emptyAst,
        errors := [createError ErrorCode.UNKNOWN_ERROR
          (txt "Unexpected error: Cannot read properties of undefined (reading 'split')")
          (createParseContext entryPath [] 0)],
        warnings := [], success := false } := by
  simp only [parseBUI, hnc, parseBUIFileMode, hex, Bool.not_true,
    Bool.false_eq_true, if_false, hname, ne_eq, not_true_eq_false, hfind,
    herr]

end Bui

namespace Bui

set_option maxHeartbeats 1600000 in
/-- Witness for the amended C10 at the concrete project `env10`. -/
theorem claim_C10_witness :
    parseBUI env10 (txt "index.bui") {} =
      { ast := emptyAst,
        errors := [createError ErrorCode.UNKNOWN_ERROR
          (txt "Unexpected error: Cannot read properties of undefined (reading 'split')")
          (createParseContext (txt "index.bui") [] 0)],
        warnings := [], success := false } :=
  claim_C10_files_block_failure env10 (txt "index.bui") {} (txt "files: []")
    (txt "Invalid JSON format for files block: files array cannot be empty")
    (by rfl) (by rfl) (by rfl) (by rfl) (by rfl)

set_option maxHeartbeats 1600000 in
/-- Counterexample to the unamended C10: the empty `files:` block of
`env10` makes compilation fail with a single error — but its code is E499
(UNKNOWN_ERROR), and no INVALID_FILES_BLOCK (E008) diagnostic exists. -/
theorem claim_C10_counterexample :
    (splitBlocks (readFileSync env10 (txt "index.bui"))).find?
        (fun b => jsStartsWith (trimStr b) (txt "files:")) =
      some (txt "files: []") ∧
    parseFilesBlock (txt "files: []") =
      .error (txt "Invalid JSON format for files block: files array cannot be empty") ∧
    (parseBUI env10 (txt "index.bui") {}).errors.map CompilerError.code =
      [txt "E499"] ∧
    countCode (parseBUI env10 (txt "index.bui") {}).errors
      ErrorCode.INVALID_FILES_BLOCK = 0 ∧
    (parseBUI env10 (txt "index.bui") {}).ast.bPods = [] ∧
    (parseBUI env10 (txt "index.bui") {}).success = false :=
  ⟨by rfl, by rfl, by rfl, by rfl, by rfl, by rfl⟩

end Bui
